import Mathlib

/-!
# Ray/rectangle intersection and material scattering (CUDARenderer)

A shallow embedding of `hittable.h`, `plane.h` and `material.h`.

The C++ code computes on `float`.  Every function is transcribed once over an
abstract scalar type `α` that only has to provide the operations the code
uses (`+ - * /`, unary minus, the literals and decidable `<`, `<=`).  Three
instances are used:

* any linear ordered field (`ℚ` for evaluation): exact arithmetic, no
  rounding and no non-finite values;
* `Fl`: the rationals extended with the IEEE-754 special values `NaN`, `+∞`
  and `-∞`, still without rounding.  It is used where the code divides by
  zero, which exact arithmetic cannot express;
* `F32`: finite binary32 values with round-to-nearest-even after every
  operation.  It is used where rounding decides the result.

Reference (out) parameters of the C++ functions are passed in and returned
explicitly.
-/

namespace CUDARenderer

/-! ## Scalars with IEEE special values -/

/-- Rationals extended with the IEEE-754 special values.  Finite values are
exact (no rounding, no overflow) and zero carries no sign. -/
inductive Fl where
  | nan : Fl
  | ninf : Fl
  | pinf : Fl
  | fin : ℚ → Fl
  deriving DecidableEq

namespace Fl

/-- IEEE negation. -/
def neg : Fl → Fl
  | nan => nan
  | ninf => pinf
  | pinf => ninf
  | fin a => fin (-a)

/-- IEEE addition: `∞ + -∞` is `NaN`. -/
def add : Fl → Fl → Fl
  | nan, _ => nan
  | _, nan => nan
  | pinf, ninf => nan
  | ninf, pinf => nan
  | pinf, _ => pinf
  | _, pinf => pinf
  | ninf, _ => ninf
  | _, ninf => ninf
  | fin a, fin b => fin (a + b)

/-- Infinity carrying the sign of a nonzero rational. -/
def infOfSign (a : ℚ) : Fl := if 0 < a then pinf else ninf

/-- IEEE multiplication: `0 * ∞` is `NaN`. -/
def mul : Fl → Fl → Fl
  | nan, _ => nan
  | _, nan => nan
  | pinf, pinf => pinf
  | pinf, ninf => ninf
  | ninf, pinf => ninf
  | ninf, ninf => pinf
  | pinf, fin b => if b = 0 then nan else infOfSign b
  | ninf, fin b => if b = 0 then nan else infOfSign (-b)
  | fin a, pinf => if a = 0 then nan else infOfSign a
  | fin a, ninf => if a = 0 then nan else infOfSign (-a)
  | fin a, fin b => fin (a * b)

/-- IEEE division: `0 / 0` and `∞ / ∞` are `NaN`, a nonzero finite value
divided by zero is an infinity (zero is taken as positive). -/
def div : Fl → Fl → Fl
  | nan, _ => nan
  | _, nan => nan
  | pinf, pinf => nan
  | pinf, ninf => nan
  | ninf, pinf => nan
  | ninf, ninf => nan
  | pinf, fin b => if b < 0 then ninf else pinf
  | ninf, fin b => if b < 0 then pinf else ninf
  | fin _, pinf => fin 0
  | fin _, ninf => fin 0
  | fin a, fin b => if b = 0 then (if a = 0 then nan else infOfSign a) else fin (a / b)

/-- IEEE `<`: false as soon as one side is `NaN`. -/
def lt : Fl → Fl → Bool
  | nan, _ => false
  | _, nan => false
  | _, ninf => false
  | ninf, _ => true
  | pinf, _ => false
  | fin _, pinf => true
  | fin a, fin b => decide (a < b)

/-- IEEE `<=`: false as soon as one side is `NaN`. -/
def le : Fl → Fl → Bool
  | nan, _ => false
  | _, nan => false
  | ninf, _ => true
  | _, ninf => false
  | _, pinf => true
  | pinf, fin _ => false
  | fin a, fin b => decide (a ≤ b)

instance : Neg Fl := ⟨neg⟩
instance : Add Fl := ⟨add⟩
instance : Sub Fl := ⟨fun a b => add a (neg b)⟩
instance : Mul Fl := ⟨mul⟩
instance : Div Fl := ⟨div⟩
instance : Zero Fl := ⟨fin 0⟩
instance : One Fl := ⟨fin 1⟩
instance : NatCast Fl := ⟨fun n => fin n⟩
instance : LT Fl := ⟨fun a b => lt a b = true⟩
instance : LE Fl := ⟨fun a b => le a b = true⟩
instance : DecidableRel ((· < ·) : Fl → Fl → Prop) := fun a b => inferInstanceAs (Decidable (lt a b = true))
instance : DecidableRel ((· ≤ ·) : Fl → Fl → Prop) := fun a b => inferInstanceAs (Decidable (le a b = true))

end Fl

/-! ## Scalars with binary32 rounding -/

/-- Finite binary32 values: a rational that is meant to be representable with a
24-bit significand.  Every operation rounds its exact result to the nearest
such value, ties to even.  The exponent range is unbounded (no overflow, no
subnormal numbers) and there are no special values. -/
structure F32 where
  val : ℚ
  deriving DecidableEq

namespace F32

/-- The power `2^k` for an integer `k`. -/
def pow2 (k : ℤ) : ℚ :=
  if 0 ≤ k then ((2 ^ k.toNat : ℕ) : ℚ) else 1 / ((2 ^ (-k).toNat : ℕ) : ℚ)

/-- The number of halvings that bring `n` below 2, at most `fuel` of them. -/
def log2Aux : Nat → Nat → Nat
  | 0, _ => 0
  | fuel + 1, n => if n < 2 then 0 else log2Aux fuel (n / 2) + 1

/-- The integer `⌊log2 n⌋` of a positive natural number. -/
def log2 (n : Nat) : Nat := log2Aux n n

/-- The binary exponent `⌊log2 |q|⌋` of a nonzero rational. -/
def exponent (q : ℚ) : ℤ :=
  let n := q.num.natAbs
  let d := q.den
  let a := log2 n
  let b := log2 d
  if b ≤ a then (if d * 2 ^ (a - b) ≤ n then (a : ℤ) - b else (a : ℤ) - b - 1)
  else (if d ≤ n * 2 ^ (b - a) then (a : ℤ) - b else (a : ℤ) - b - 1)

/-- Nearest integer, ties to the even one. -/
def roundEven (m : ℚ) : ℤ :=
  let f := Rat.floor m
  let r := m - f
  if r < 1 / 2 then f else if 1 / 2 < r then f + 1 else if f % 2 = 0 then f else f + 1

/-- Rounding of an exact result to 24 significant bits. -/
def round (q : ℚ) : ℚ :=
  if q = 0 then 0 else (roundEven (q / pow2 (exponent q - 23)) : ℚ) * pow2 (exponent q - 23)

instance : Neg F32 := ⟨fun a => ⟨-a.val⟩⟩
instance : Add F32 := ⟨fun a b => ⟨round (a.val + b.val)⟩⟩
instance : Sub F32 := ⟨fun a b => ⟨round (a.val - b.val)⟩⟩
instance : Mul F32 := ⟨fun a b => ⟨round (a.val * b.val)⟩⟩
instance : Zero F32 := ⟨⟨0⟩⟩
instance : One F32 := ⟨⟨1⟩⟩
instance : NatCast F32 := ⟨fun n => ⟨round n⟩⟩
instance : LT F32 := ⟨fun a b => a.val < b.val⟩
instance : LE F32 := ⟨fun a b => a.val ≤ b.val⟩
instance : DecidableRel ((· < ·) : F32 → F32 → Prop) := fun a b => inferInstanceAs (Decidable (a.val < b.val))
instance : DecidableRel ((· ≤ ·) : F32 → F32 → Prop) := fun a b => inferInstanceAs (Decidable (a.val ≤ b.val))

end F32

/-! ## Vectors and rays -/

section Defs

variable {α : Type} [Add α] [Sub α] [Mul α] [Div α] [Neg α] [Zero α] [One α] [NatCast α]
  [LT α] [DecidableRel ((· < ·) : α → α → Prop)] [LE α] [DecidableRel ((· ≤ ·) : α → α → Prop)]

/-- Modelled from the spec: `vec3.h` is not among the sources.  A 3-component
vector of scalars with accessors `x`, `y`, `z`. -/
structure vec3 (α : Type) where
  x : α
  y : α
  z : α
  deriving DecidableEq

/-- Modelled from the spec: component-wise vector sum (`vec3.h`). -/
instance : Add (vec3 α) := ⟨fun a b => ⟨a.x + b.x, a.y + b.y, a.z + b.z⟩⟩

/-- Modelled from the spec: component-wise vector difference (`vec3.h`). -/
instance : Sub (vec3 α) := ⟨fun a b => ⟨a.x - b.x, a.y - b.y, a.z - b.z⟩⟩

/-- Modelled from the spec: component-wise negation (`vec3.h`). -/
instance : Neg (vec3 α) := ⟨fun a => ⟨-a.x, -a.y, -a.z⟩⟩

/-- Modelled from the spec: scalar times vector (`vec3.h`). -/
instance : SMul α (vec3 α) := ⟨fun t a => ⟨t * a.x, t * a.y, t * a.z⟩⟩

/-- Modelled from the spec: dot product (`vec3.h`). -/
def dot (a b : vec3 α) : α := a.x * b.x + a.y * b.y + a.z * b.z

/-- Modelled from the spec: squared Euclidean length (`vec3.h`). -/
def vec3.squared_length (a : vec3 α) : α := a.x * a.x + a.y * a.y + a.z * a.z

/-- Modelled from the spec: `ray.h` is not among the sources.  A ray is an
origin and a direction. -/
structure ray (α : Type) where
  origin : vec3 α
  direction : vec3 α
  deriving DecidableEq

/-- Modelled from the spec: `p(t) = origin + t·direction` (`ray.h`). -/
def ray.point_at_parameter (r : ray α) (t : α) : vec3 α := r.origin + t • r.direction

/-! ## hittable.h -/

/-- The record `hit_record`; `mat_ptr` is the address of a material. -/
structure hit_record (α : Type) where
  t : α
  p : vec3 α
  normal : vec3 α
  mat_ptr : Nat
  u : α
  v : α
  front_face : Bool
  deriving DecidableEq

/-- The method `hit_record::set_face_normal`. -/
def hit_record.set_face_normal (recd : hit_record α) (r : ray α) (outward_normal : vec3 α) :
    hit_record α :=
  let recd := { recd with front_face := decide (dot r.direction outward_normal < 0) }
  { recd with normal := if recd.front_face then outward_normal else -outward_normal }

/-! ## plane.h -/

/-- Rectangle in a plane of constant `z`. -/
structure xy_plane (α : Type) where
  mat_ptr : Nat
  x0 : α
  x1 : α
  y0 : α
  y1 : α
  k : α

/-- Rectangle in a plane of constant `y`. -/
structure xz_plane (α : Type) where
  mat_ptr : Nat
  x0 : α
  x1 : α
  z0 : α
  z1 : α
  k : α

/-- Rectangle in a plane of constant `x`. -/
structure yz_plane (α : Type) where
  mat_ptr : Nat
  y0 : α
  y1 : α
  z0 : α
  z1 : α
  k : α

/-- The method `xy_plane::hit`; returns the boolean result and the record. -/
def xy_plane.hit (self : xy_plane α) (r : ray α) (t_min t_max : α) (recd : hit_record α) :
    Bool × hit_record α :=
  let t := (self.k - r.origin.z) / r.direction.z
  if t < t_min ∨ t > t_max then (false, recd) else
  let x := r.origin.x + t * r.direction.x
  let y := r.origin.y + t * r.direction.y
  if x < self.x0 ∨ x > self.x1 ∨ y < self.y0 ∨ y > self.y1 then (false, recd) else
  let recd := { recd with u := (x - self.x0) / (self.x1 - self.x0) }
  let recd := { recd with v := (y - self.y0) / (self.y1 - self.y0) }
  let recd := { recd with t := t }
  let outward_normal : vec3 α := ⟨0, 0, 1⟩
  let recd := recd.set_face_normal r outward_normal
  let recd := { recd with mat_ptr := self.mat_ptr }
  let recd := { recd with p := r.point_at_parameter t }
  (true, recd)

/-- The method `xz_plane::hit`; returns the boolean result and the record. -/
def xz_plane.hit (self : xz_plane α) (r : ray α) (t_min t_max : α) (recd : hit_record α) :
    Bool × hit_record α :=
  let t := (self.k - r.origin.y) / r.direction.y
  if t < t_min ∨ t > t_max then (false, recd) else
  let x := r.origin.x + t * r.direction.x
  let z := r.origin.z + t * r.direction.z
  if x < self.x0 ∨ x > self.x1 ∨ z < self.z0 ∨ z > self.z1 then (false, recd) else
  let recd := { recd with u := (x - self.x0) / (self.x1 - self.x0) }
  let recd := { recd with v := (z - self.z0) / (self.z1 - self.z0) }
  let recd := { recd with t := t }
  let outward_normal : vec3 α := ⟨0, 1, 0⟩
  let recd := recd.set_face_normal r outward_normal
  let recd := { recd with mat_ptr := self.mat_ptr }
  let recd := { recd with p := r.point_at_parameter t }
  (true, recd)

/-- The method `yz_plane::hit`; returns the boolean result and the record. -/
def yz_plane.hit (self : yz_plane α) (r : ray α) (t_min t_max : α) (recd : hit_record α) :
    Bool × hit_record α :=
  let t := (self.k - r.origin.x) / r.direction.x
  if t < t_min ∨ t > t_max then (false, recd) else
  let y := r.origin.y + t * r.direction.y
  let z := r.origin.z + t * r.direction.z
  if y < self.y0 ∨ y > self.y1 ∨ z < self.z0 ∨ z > self.z1 then (false, recd) else
  let recd := { recd with u := (y - self.y0) / (self.y1 - self.y0) }
  let recd := { recd with v := (z - self.z0) / (self.z1 - self.z0) }
  let recd := { recd with t := t }
  let outward_normal : vec3 α := ⟨1, 0, 0⟩
  let recd := recd.set_face_normal r outward_normal
  let recd := { recd with mat_ptr := self.mat_ptr }
  let recd := { recd with p := r.point_at_parameter t }
  (true, recd)

/-! ## material.h -/

/-- Modelled from the spec: the cuRAND generator is an external library.  A
generator state is the sequence of uniform values it is going to output
together with a cursor into that sequence.  Every sequence is admitted, which
is more than a generator can produce: the model supports statements about all
states, and says nothing on which sequences occur. -/
structure curandState (α : Type) where
  draws : Nat → α
  pos : Nat

/-- Modelled from the spec: one uniform draw, advancing the state. -/
def curand_uniform (local_rand_state : curandState α) : α × curandState α :=
  (local_rand_state.draws local_rand_state.pos,
    { local_rand_state with pos := local_rand_state.pos + 1 })

/-- The preprocessor definition `RANDVEC3`: three successive uniform draws, read
left to right. -/
def RANDVEC3 (local_rand_state : curandState α) : vec3 α × curandState α :=
  let (a, s1) := curand_uniform local_rand_state
  let (b, s2) := curand_uniform s1
  let (c, s3) := curand_uniform s2
  (⟨a, b, c⟩, s3)

/-- The function `random_in_unit_sphere`.  The `do … while` loop runs its body
at most `fuel` times; `none` means the loop has not left within `fuel`
iterations. -/
def random_in_unit_sphere : Nat → curandState α → Option (vec3 α × curandState α)
  | 0, _ => none
  | fuel + 1, local_rand_state =>
    let (q, s1) := RANDVEC3 local_rand_state
    let p : vec3 α := (2 : α) • q - ⟨1, 1, 1⟩
    if p.squared_length ≥ 1 then random_in_unit_sphere fuel s1 else some (p, s1)

/-- The specification's reading of the random source: the `i`-th uniform
triple `q_i` that a state is going to deliver. -/
def uniform_triple (local_rand_state : curandState α) (i : Nat) : vec3 α :=
  ⟨local_rand_state.draws (local_rand_state.pos + 3 * i),
    local_rand_state.draws (local_rand_state.pos + 3 * i + 1),
    local_rand_state.draws (local_rand_state.pos + 3 * i + 2)⟩

/-- The specification's candidate point `p_i = 2*q_i - (1,1,1)`. -/
def candidate (local_rand_state : curandState α) (i : Nat) : vec3 α :=
  (2 : α) • uniform_triple local_rand_state i - ⟨1, 1, 1⟩

/-- The function `reflect`. -/
def reflect (v n : vec3 α) : vec3 α := v - (2 * dot v n) • n

/-- The default `material::emitted`. -/
def material.emitted : vec3 α := ⟨0, 0, 0⟩

/-- What a call of `scatter` leaves behind: the returned boolean, the two
reference parameters and the generator state. -/
structure scatter_result (α : Type) where
  ret : Bool
  attenuation : vec3 α
  scattered : ray α
  local_rand_state : curandState α

/-- The class `lambertian`. -/
structure lambertian (α : Type) where
  albedo : vec3 α

/-- The method `lambertian::scatter`; `none` when the sampler does not return
within `fuel` iterations. -/
def lambertian.scatter (self : lambertian α) (fuel : Nat) (_r_in : ray α) (recd : hit_record α)
    (_attenuation : vec3 α) (_scattered : ray α) (local_rand_state : curandState α) :
    Option (scatter_result α) :=
  match random_in_unit_sphere fuel local_rand_state with
  | none => none
  | some (s, st) =>
    let target := recd.p + recd.normal + s
    let scattered : ray α := ⟨recd.p, target - recd.p⟩
    let attenuation := self.albedo
    some ⟨true, attenuation, scattered, st⟩

/-- The inherited `emitted` of `lambertian`. -/
def lambertian.emitted (_self : lambertian α) : vec3 α := material.emitted

/-- The class `metal`. -/
structure metal (α : Type) where
  albedo : vec3 α
  fuzz : α

/-- The constructor `metal::metal(a, f)`. -/
def metal.ctor (a : vec3 α) (f : α) : metal α :=
  { albedo := a, fuzz := if f < 1 then f else 1 }

/-- The method `metal::scatter`.  The normalization `unit_vector` of `vec3.h`
is not among the sources and is a parameter. -/
def metal.scatter (unit_vector : vec3 α → vec3 α) (self : metal α) (fuel : Nat) (r_in : ray α)
    (recd : hit_record α) (_attenuation : vec3 α) (_scattered : ray α)
    (local_rand_state : curandState α) : Option (scatter_result α) :=
  let reflected := reflect (unit_vector r_in.direction) recd.normal
  match random_in_unit_sphere fuel local_rand_state with
  | none => none
  | some (s, st) =>
    let scattered : ray α := ⟨recd.p, reflected + self.fuzz • s⟩
    let attenuation := self.albedo
    some ⟨true, attenuation, scattered, st⟩

/-- The inherited `emitted` of `metal`. -/
def metal.emitted (_self : metal α) : vec3 α := material.emitted

/-- The class `diffuse_light`. -/
structure diffuse_light (α : Type) where
  emit : vec3 α

/-- The method `diffuse_light::scatter`: the reference parameters are left
as they were. -/
def diffuse_light.scatter (_self : diffuse_light α) (_r_in : ray α) (_recd : hit_record α)
    (attenuation : vec3 α) (scattered : ray α) (local_rand_state : curandState α) :
    scatter_result α :=
  ⟨false, attenuation, scattered, local_rand_state⟩

/-- The method `diffuse_light::emitted`. -/
def diffuse_light.emitted (self : diffuse_light α) : vec3 α := self.emit

end Defs

/-! ## Unfolding lemmas for the vector operations -/

section VecLemmas

variable {α : Type}

@[simp] theorem vec3.add_def [Add α] (a b : vec3 α) :
    a + b = ⟨a.x + b.x, a.y + b.y, a.z + b.z⟩ := rfl

@[simp] theorem vec3.sub_def [Sub α] (a b : vec3 α) :
    a - b = ⟨a.x - b.x, a.y - b.y, a.z - b.z⟩ := rfl

@[simp] theorem vec3.neg_def [Neg α] (a : vec3 α) : -a = ⟨-a.x, -a.y, -a.z⟩ := rfl

@[simp] theorem vec3.smul_def [Mul α] (t : α) (a : vec3 α) :
    t • a = ⟨t * a.x, t * a.y, t * a.z⟩ := rfl

theorem vec3.ext_of_components (a b : vec3 α) (hx : a.x = b.x) (hy : a.y = b.y)
    (hz : a.z = b.z) : a = b := by
  cases a
  cases b
  simp only [vec3.mk.injEq]
  exact ⟨hx, hy, hz⟩

end VecLemmas

/-! ## Shape of the result of `hit` -/

section HitShape

variable {α : Type} [Add α] [Sub α] [Mul α] [Div α] [Neg α] [Zero α] [One α]
  [LT α] [DecidableRel ((· < ·) : α → α → Prop)]

theorem xy_plane_hit_fst_iff (self : xy_plane α) (r : ray α) (t_min t_max : α)
    (recd : hit_record α) :
    (self.hit r t_min t_max recd).1 = true ↔
      ¬ ((self.k - r.origin.z) / r.direction.z < t_min ∨
          (self.k - r.origin.z) / r.direction.z > t_max) ∧
      ¬ (r.origin.x + (self.k - r.origin.z) / r.direction.z * r.direction.x < self.x0 ∨
          r.origin.x + (self.k - r.origin.z) / r.direction.z * r.direction.x > self.x1 ∨
          r.origin.y + (self.k - r.origin.z) / r.direction.z * r.direction.y < self.y0 ∨
          r.origin.y + (self.k - r.origin.z) / r.direction.z * r.direction.y > self.y1) := by
  unfold xy_plane.hit
  by_cases h1 : ((self.k - r.origin.z) / r.direction.z < t_min ∨
      (self.k - r.origin.z) / r.direction.z > t_max)
  · simp [h1]
  · by_cases h2 : (r.origin.x + (self.k - r.origin.z) / r.direction.z * r.direction.x < self.x0 ∨
        r.origin.x + (self.k - r.origin.z) / r.direction.z * r.direction.x > self.x1 ∨
        r.origin.y + (self.k - r.origin.z) / r.direction.z * r.direction.y < self.y0 ∨
        r.origin.y + (self.k - r.origin.z) / r.direction.z * r.direction.y > self.y1)
    · simp [h1, h2]
    · simp [h1, h2]

theorem xy_plane_hit_snd_of_true (self : xy_plane α) (r : ray α) (t_min t_max : α)
    (recd : hit_record α) (h : (self.hit r t_min t_max recd).1 = true) :
    (self.hit r t_min t_max recd).2 =
      { t := (self.k - r.origin.z) / r.direction.z
        p := r.point_at_parameter ((self.k - r.origin.z) / r.direction.z)
        normal := if dot r.direction (⟨0, 0, 1⟩ : vec3 α) < 0 then ⟨0, 0, 1⟩ else -⟨0, 0, 1⟩
        mat_ptr := self.mat_ptr
        u := (r.origin.x + (self.k - r.origin.z) / r.direction.z * r.direction.x - self.x0) /
              (self.x1 - self.x0)
        v := (r.origin.y + (self.k - r.origin.z) / r.direction.z * r.direction.y - self.y0) /
              (self.y1 - self.y0)
        front_face := decide (dot r.direction (⟨0, 0, 1⟩ : vec3 α) < 0) } := by
  have h0 := (xy_plane_hit_fst_iff self r t_min t_max recd).mp h
  unfold xy_plane.hit
  simp only [h0.1, h0.2, if_false, hit_record.set_face_normal, decide_eq_true_eq]

theorem xy_plane_hit_of_false (self : xy_plane α) (r : ray α) (t_min t_max : α)
    (recd : hit_record α) (h : (self.hit r t_min t_max recd).1 = false) :
    (self.hit r t_min t_max recd).2 = recd := by
  unfold xy_plane.hit at h ⊢
  by_cases h1 : ((self.k - r.origin.z) / r.direction.z < t_min ∨
      (self.k - r.origin.z) / r.direction.z > t_max)
  · simp [h1]
  · by_cases h2 : (r.origin.x + (self.k - r.origin.z) / r.direction.z * r.direction.x < self.x0 ∨
        r.origin.x + (self.k - r.origin.z) / r.direction.z * r.direction.x > self.x1 ∨
        r.origin.y + (self.k - r.origin.z) / r.direction.z * r.direction.y < self.y0 ∨
        r.origin.y + (self.k - r.origin.z) / r.direction.z * r.direction.y > self.y1)
    · simp [h1, h2]
    · simp [h1, h2] at h

theorem xz_plane_hit_fst_iff (self : xz_plane α) (r : ray α) (t_min t_max : α)
    (recd : hit_record α) :
    (self.hit r t_min t_max recd).1 = true ↔
      ¬ ((self.k - r.origin.y) / r.direction.y < t_min ∨
          (self.k - r.origin.y) / r.direction.y > t_max) ∧
      ¬ (r.origin.x + (self.k - r.origin.y) / r.direction.y * r.direction.x < self.x0 ∨
          r.origin.x + (self.k - r.origin.y) / r.direction.y * r.direction.x > self.x1 ∨
          r.origin.z + (self.k - r.origin.y) / r.direction.y * r.direction.z < self.z0 ∨
          r.origin.z + (self.k - r.origin.y) / r.direction.y * r.direction.z > self.z1) := by
  unfold xz_plane.hit
  by_cases h1 : ((self.k - r.origin.y) / r.direction.y < t_min ∨
      (self.k - r.origin.y) / r.direction.y > t_max)
  · simp [h1]
  · by_cases h2 : (r.origin.x + (self.k - r.origin.y) / r.direction.y * r.direction.x < self.x0 ∨
        r.origin.x + (self.k - r.origin.y) / r.direction.y * r.direction.x > self.x1 ∨
        r.origin.z + (self.k - r.origin.y) / r.direction.y * r.direction.z < self.z0 ∨
        r.origin.z + (self.k - r.origin.y) / r.direction.y * r.direction.z > self.z1)
    · simp [h1, h2]
    · simp [h1, h2]

theorem xz_plane_hit_snd_of_true (self : xz_plane α) (r : ray α) (t_min t_max : α)
    (recd : hit_record α) (h : (self.hit r t_min t_max recd).1 = true) :
    (self.hit r t_min t_max recd).2 =
      { t := (self.k - r.origin.y) / r.direction.y
        p := r.point_at_parameter ((self.k - r.origin.y) / r.direction.y)
        normal := if dot r.direction (⟨0, 1, 0⟩ : vec3 α) < 0 then ⟨0, 1, 0⟩ else -⟨0, 1, 0⟩
        mat_ptr := self.mat_ptr
        u := (r.origin.x + (self.k - r.origin.y) / r.direction.y * r.direction.x - self.x0) /
              (self.x1 - self.x0)
        v := (r.origin.z + (self.k - r.origin.y) / r.direction.y * r.direction.z - self.z0) /
              (self.z1 - self.z0)
        front_face := decide (dot r.direction (⟨0, 1, 0⟩ : vec3 α) < 0) } := by
  have h0 := (xz_plane_hit_fst_iff self r t_min t_max recd).mp h
  unfold xz_plane.hit
  simp only [h0.1, h0.2, if_false, hit_record.set_face_normal, decide_eq_true_eq]

theorem xz_plane_hit_of_false (self : xz_plane α) (r : ray α) (t_min t_max : α)
    (recd : hit_record α) (h : (self.hit r t_min t_max recd).1 = false) :
    (self.hit r t_min t_max recd).2 = recd := by
  unfold xz_plane.hit at h ⊢
  by_cases h1 : ((self.k - r.origin.y) / r.direction.y < t_min ∨
      (self.k - r.origin.y) / r.direction.y > t_max)
  · simp [h1]
  · by_cases h2 : (r.origin.x + (self.k - r.origin.y) / r.direction.y * r.direction.x < self.x0 ∨
        r.origin.x + (self.k - r.origin.y) / r.direction.y * r.direction.x > self.x1 ∨
        r.origin.z + (self.k - r.origin.y) / r.direction.y * r.direction.z < self.z0 ∨
        r.origin.z + (self.k - r.origin.y) / r.direction.y * r.direction.z > self.z1)
    · simp [h1, h2]
    · simp [h1, h2] at h

theorem yz_plane_hit_fst_iff (self : yz_plane α) (r : ray α) (t_min t_max : α)
    (recd : hit_record α) :
    (self.hit r t_min t_max recd).1 = true ↔
      ¬ ((self.k - r.origin.x) / r.direction.x < t_min ∨
          (self.k - r.origin.x) / r.direction.x > t_max) ∧
      ¬ (r.origin.y + (self.k - r.origin.x) / r.direction.x * r.direction.y < self.y0 ∨
          r.origin.y + (self.k - r.origin.x) / r.direction.x * r.direction.y > self.y1 ∨
          r.origin.z + (self.k - r.origin.x) / r.direction.x * r.direction.z < self.z0 ∨
          r.origin.z + (self.k - r.origin.x) / r.direction.x * r.direction.z > self.z1) := by
  unfold yz_plane.hit
  by_cases h1 : ((self.k - r.origin.x) / r.direction.x < t_min ∨
      (self.k - r.origin.x) / r.direction.x > t_max)
  · simp [h1]
  · by_cases h2 : (r.origin.y + (self.k - r.origin.x) / r.direction.x * r.direction.y < self.y0 ∨
        r.origin.y + (self.k - r.origin.x) / r.direction.x * r.direction.y > self.y1 ∨
        r.origin.z + (self.k - r.origin.x) / r.direction.x * r.direction.z < self.z0 ∨
        r.origin.z + (self.k - r.origin.x) / r.direction.x * r.direction.z > self.z1)
    · simp [h1, h2]
    · simp [h1, h2]

theorem yz_plane_hit_snd_of_true (self : yz_plane α) (r : ray α) (t_min t_max : α)
    (recd : hit_record α) (h : (self.hit r t_min t_max recd).1 = true) :
    (self.hit r t_min t_max recd).2 =
      { t := (self.k - r.origin.x) / r.direction.x
        p := r.point_at_parameter ((self.k - r.origin.x) / r.direction.x)
        normal := if dot r.direction (⟨1, 0, 0⟩ : vec3 α) < 0 then ⟨1, 0, 0⟩ else -⟨1, 0, 0⟩
        mat_ptr := self.mat_ptr
        u := (r.origin.y + (self.k - r.origin.x) / r.direction.x * r.direction.y - self.y0) /
              (self.y1 - self.y0)
        v := (r.origin.z + (self.k - r.origin.x) / r.direction.x * r.direction.z - self.z0) /
              (self.z1 - self.z0)
        front_face := decide (dot r.direction (⟨1, 0, 0⟩ : vec3 α) < 0) } := by
  have h0 := (yz_plane_hit_fst_iff self r t_min t_max recd).mp h
  unfold yz_plane.hit
  simp only [h0.1, h0.2, if_false, hit_record.set_face_normal, decide_eq_true_eq]

theorem yz_plane_hit_of_false (self : yz_plane α) (r : ray α) (t_min t_max : α)
    (recd : hit_record α) (h : (self.hit r t_min t_max recd).1 = false) :
    (self.hit r t_min t_max recd).2 = recd := by
  unfold yz_plane.hit at h ⊢
  by_cases h1 : ((self.k - r.origin.x) / r.direction.x < t_min ∨
      (self.k - r.origin.x) / r.direction.x > t_max)
  · simp [h1]
  · by_cases h2 : (r.origin.y + (self.k - r.origin.x) / r.direction.x * r.direction.y < self.y0 ∨
        r.origin.y + (self.k - r.origin.x) / r.direction.x * r.direction.y > self.y1 ∨
        r.origin.z + (self.k - r.origin.x) / r.direction.x * r.direction.z < self.z0 ∨
        r.origin.z + (self.k - r.origin.x) / r.direction.x * r.direction.z > self.z1)
    · simp [h1, h2]
    · simp [h1, h2] at h

end HitShape

/-! ## The acceptance condition in exact arithmetic -/

section HitShapeOrdered

variable {α : Type} [LinearOrderedField α]

theorem xy_plane_hit_fst_iff_le (self : xy_plane α) (r : ray α) (t_min t_max : α)
    (recd : hit_record α) :
    (self.hit r t_min t_max recd).1 = true ↔
      (t_min ≤ (self.k - r.origin.z) / r.direction.z ∧ (self.k - r.origin.z) / r.direction.z ≤ t_max ∧
        self.x0 ≤ r.origin.x + (self.k - r.origin.z) / r.direction.z * r.direction.x ∧
        r.origin.x + (self.k - r.origin.z) / r.direction.z * r.direction.x ≤ self.x1 ∧
        self.y0 ≤ r.origin.y + (self.k - r.origin.z) / r.direction.z * r.direction.y ∧
        r.origin.y + (self.k - r.origin.z) / r.direction.z * r.direction.y ≤ self.y1) := by
  rw [xy_plane_hit_fst_iff]
  simp only [not_or, not_lt, gt_iff_lt, and_assoc]

theorem xz_plane_hit_fst_iff_le (self : xz_plane α) (r : ray α) (t_min t_max : α)
    (recd : hit_record α) :
    (self.hit r t_min t_max recd).1 = true ↔
      (t_min ≤ (self.k - r.origin.y) / r.direction.y ∧ (self.k - r.origin.y) / r.direction.y ≤ t_max ∧
        self.x0 ≤ r.origin.x + (self.k - r.origin.y) / r.direction.y * r.direction.x ∧
        r.origin.x + (self.k - r.origin.y) / r.direction.y * r.direction.x ≤ self.x1 ∧
        self.z0 ≤ r.origin.z + (self.k - r.origin.y) / r.direction.y * r.direction.z ∧
        r.origin.z + (self.k - r.origin.y) / r.direction.y * r.direction.z ≤ self.z1) := by
  rw [xz_plane_hit_fst_iff]
  simp only [not_or, not_lt, gt_iff_lt, and_assoc]

theorem yz_plane_hit_fst_iff_le (self : yz_plane α) (r : ray α) (t_min t_max : α)
    (recd : hit_record α) :
    (self.hit r t_min t_max recd).1 = true ↔
      (t_min ≤ (self.k - r.origin.x) / r.direction.x ∧ (self.k - r.origin.x) / r.direction.x ≤ t_max ∧
        self.y0 ≤ r.origin.y + (self.k - r.origin.x) / r.direction.x * r.direction.y ∧
        r.origin.y + (self.k - r.origin.x) / r.direction.x * r.direction.y ≤ self.y1 ∧
        self.z0 ≤ r.origin.z + (self.k - r.origin.x) / r.direction.x * r.direction.z ∧
        r.origin.z + (self.k - r.origin.x) / r.direction.x * r.direction.z ≤ self.z1) := by
  rw [yz_plane_hit_fst_iff]
  simp only [not_or, not_lt, gt_iff_lt, and_assoc]

end HitShapeOrdered

/-! ## Rectangle intersection in exact arithmetic -/

section PlaneClaims

variable {α : Type} [LinearOrderedField α]

/-- C1: for each of the three rectangles and every ray whose direction
component along the fixed axis is nonzero, if the analytic parameter
`t = (k - origin[F]) / direction[F]` lies in `[t_min, t_max]` and both free-axis
coordinates at `t` lie inside the inclusive bounds, then `hit` returns true,
`rec.t` is that `t`, and `rec.p` is `point_at_parameter(rec.t)`, that is
`origin + rec.t * direction`. -/
theorem hit_inside_rectangle :
    (∀ (self : xy_plane α) (r : ray α) (t_min t_max : α) (recd : hit_record α),
      r.direction.z ≠ 0 →
      t_min ≤ (self.k - r.origin.z) / r.direction.z → (self.k - r.origin.z) / r.direction.z ≤ t_max →
      self.x0 ≤ r.origin.x + (self.k - r.origin.z) / r.direction.z * r.direction.x →
      r.origin.x + (self.k - r.origin.z) / r.direction.z * r.direction.x ≤ self.x1 →
      self.y0 ≤ r.origin.y + (self.k - r.origin.z) / r.direction.z * r.direction.y →
      r.origin.y + (self.k - r.origin.z) / r.direction.z * r.direction.y ≤ self.y1 →
      (self.hit r t_min t_max recd).1 = true ∧
      (self.hit r t_min t_max recd).2.t = (self.k - r.origin.z) / r.direction.z ∧
      (self.hit r t_min t_max recd).2.p =
        r.point_at_parameter (self.hit r t_min t_max recd).2.t ∧
      (self.hit r t_min t_max recd).2.p =
        r.origin + (self.hit r t_min t_max recd).2.t • r.direction) ∧
    (∀ (self : xz_plane α) (r : ray α) (t_min t_max : α) (recd : hit_record α),
      r.direction.y ≠ 0 →
      t_min ≤ (self.k - r.origin.y) / r.direction.y → (self.k - r.origin.y) / r.direction.y ≤ t_max →
      self.x0 ≤ r.origin.x + (self.k - r.origin.y) / r.direction.y * r.direction.x →
      r.origin.x + (self.k - r.origin.y) / r.direction.y * r.direction.x ≤ self.x1 →
      self.z0 ≤ r.origin.z + (self.k - r.origin.y) / r.direction.y * r.direction.z →
      r.origin.z + (self.k - r.origin.y) / r.direction.y * r.direction.z ≤ self.z1 →
      (self.hit r t_min t_max recd).1 = true ∧
      (self.hit r t_min t_max recd).2.t = (self.k - r.origin.y) / r.direction.y ∧
      (self.hit r t_min t_max recd).2.p =
        r.point_at_parameter (self.hit r t_min t_max recd).2.t ∧
      (self.hit r t_min t_max recd).2.p =
        r.origin + (self.hit r t_min t_max recd).2.t • r.direction) ∧
    (∀ (self : yz_plane α) (r : ray α) (t_min t_max : α) (recd : hit_record α),
      r.direction.x ≠ 0 →
      t_min ≤ (self.k - r.origin.x) / r.direction.x → (self.k - r.origin.x) / r.direction.x ≤ t_max →
      self.y0 ≤ r.origin.y + (self.k - r.origin.x) / r.direction.x * r.direction.y →
      r.origin.y + (self.k - r.origin.x) / r.direction.x * r.direction.y ≤ self.y1 →
      self.z0 ≤ r.origin.z + (self.k - r.origin.x) / r.direction.x * r.direction.z →
      r.origin.z + (self.k - r.origin.x) / r.direction.x * r.direction.z ≤ self.z1 →
      (self.hit r t_min t_max recd).1 = true ∧
      (self.hit r t_min t_max recd).2.t = (self.k - r.origin.x) / r.direction.x ∧
      (self.hit r t_min t_max recd).2.p =
        r.point_at_parameter (self.hit r t_min t_max recd).2.t ∧
      (self.hit r t_min t_max recd).2.p =
        r.origin + (self.hit r t_min t_max recd).2.t • r.direction) := by
  refine ⟨?_, ?_, ?_⟩
  · intro self r t_min t_max recd _ h1 h2 h3 h4 h5 h6
    have hit : (self.hit r t_min t_max recd).1 = true := by
      rw [xy_plane_hit_fst_iff]
      exact ⟨by simp [not_lt.mpr h1, not_lt.mpr h2],
        by simp [not_lt.mpr h3, not_lt.mpr h4, not_lt.mpr h5, not_lt.mpr h6]⟩
    rw [xy_plane_hit_snd_of_true self r t_min t_max recd hit]
    exact ⟨hit, rfl, rfl, rfl⟩
  · intro self r t_min t_max recd _ h1 h2 h3 h4 h5 h6
    have hit : (self.hit r t_min t_max recd).1 = true := by
      rw [xz_plane_hit_fst_iff]
      exact ⟨by simp [not_lt.mpr h1, not_lt.mpr h2],
        by simp [not_lt.mpr h3, not_lt.mpr h4, not_lt.mpr h5, not_lt.mpr h6]⟩
    rw [xz_plane_hit_snd_of_true self r t_min t_max recd hit]
    exact ⟨hit, rfl, rfl, rfl⟩
  · intro self r t_min t_max recd _ h1 h2 h3 h4 h5 h6
    have hit : (self.hit r t_min t_max recd).1 = true := by
      rw [yz_plane_hit_fst_iff]
      exact ⟨by simp [not_lt.mpr h1, not_lt.mpr h2],
        by simp [not_lt.mpr h3, not_lt.mpr h4, not_lt.mpr h5, not_lt.mpr h6]⟩
    rw [yz_plane_hit_snd_of_true self r t_min t_max recd hit]
    exact ⟨hit, rfl, rfl, rfl⟩

/-- C1, the scenario of the specification: the rectangle `x, y ∈ [0,1]`,
`k = 5` on the z axis and the ray from `(0.5, 0.5, 0)` along `(0, 0, 1)` give a
hit with `t = 5` and `p = (0.5, 0.5, 5)`. -/
theorem hit_inside_rectangle_witness :
    (xy_plane.hit (⟨7, 0, 1, 0, 1, 5⟩ : xy_plane ℚ) ⟨⟨1/2, 1/2, 0⟩, ⟨0, 0, 1⟩⟩ 0 100
        ⟨0, ⟨0, 0, 0⟩, ⟨0, 0, 0⟩, 0, 0, 0, true⟩).1 = true ∧
    (xy_plane.hit (⟨7, 0, 1, 0, 1, 5⟩ : xy_plane ℚ) ⟨⟨1/2, 1/2, 0⟩, ⟨0, 0, 1⟩⟩ 0 100
        ⟨0, ⟨0, 0, 0⟩, ⟨0, 0, 0⟩, 0, 0, 0, true⟩).2.t = 5 ∧
    (xy_plane.hit (⟨7, 0, 1, 0, 1, 5⟩ : xy_plane ℚ) ⟨⟨1/2, 1/2, 0⟩, ⟨0, 0, 1⟩⟩ 0 100
        ⟨0, ⟨0, 0, 0⟩, ⟨0, 0, 0⟩, 0, 0, 0, true⟩).2.p = ⟨1/2, 1/2, 5⟩ := by
  have h := (hit_inside_rectangle (α := ℚ)).1 ⟨7, 0, 1, 0, 1, 5⟩ ⟨⟨1/2, 1/2, 0⟩, ⟨0, 0, 1⟩⟩ 0 100
    ⟨0, ⟨0, 0, 0⟩, ⟨0, 0, 0⟩, 0, 0, 0, true⟩ (by norm_num) (by norm_num) (by norm_num)
    (by norm_num) (by norm_num) (by norm_num) (by norm_num)
  refine ⟨h.1, ?_, ?_⟩
  · rw [h.2.1]; norm_num
  · rw [h.2.2.2, h.2.1]; norm_num

/-- C3 as stated fails where the code divides by zero.  First input: a
rectangle of zero extent in `x` (`x0 = x1 = 0.5`) is hit on its edge and the
stored `u` is `0/0 = NaN`, which is neither `>= 0` nor `<= 1`.  Second input: a
ray lying in the plane of the unit rectangle (`direction.z = 0`,
`origin.z = k`) has `t = 0/0 = NaN`; no comparison rejects it, `hit` returns
true and `u`, `v` are `NaN`. -/
theorem texture_coordinates_counterexample :
    ((xy_plane.hit (⟨7, .fin (1/2), .fin (1/2), .fin 0, .fin 1, .fin 5⟩ : xy_plane Fl)
        ⟨⟨.fin (1/2), .fin (1/2), .fin 0⟩, ⟨.fin 0, .fin 0, .fin 1⟩⟩ (.fin 0) (.fin 100)
        ⟨.fin 0, ⟨.fin 0, .fin 0, .fin 0⟩, ⟨.fin 0, .fin 0, .fin 0⟩, 0, .fin 0, .fin 0, true⟩).1 = true ∧
      (xy_plane.hit (⟨7, .fin (1/2), .fin (1/2), .fin 0, .fin 1, .fin 5⟩ : xy_plane Fl)
        ⟨⟨.fin (1/2), .fin (1/2), .fin 0⟩, ⟨.fin 0, .fin 0, .fin 1⟩⟩ (.fin 0) (.fin 100)
        ⟨.fin 0, ⟨.fin 0, .fin 0, .fin 0⟩, ⟨.fin 0, .fin 0, .fin 0⟩, 0, .fin 0, .fin 0, true⟩).2.u = Fl.nan ∧
      ¬ (0 ≤ (xy_plane.hit (⟨7, .fin (1/2), .fin (1/2), .fin 0, .fin 1, .fin 5⟩ : xy_plane Fl)
        ⟨⟨.fin (1/2), .fin (1/2), .fin 0⟩, ⟨.fin 0, .fin 0, .fin 1⟩⟩ (.fin 0) (.fin 100)
        ⟨.fin 0, ⟨.fin 0, .fin 0, .fin 0⟩, ⟨.fin 0, .fin 0, .fin 0⟩, 0, .fin 0, .fin 0, true⟩).2.u) ∧
      ¬ ((xy_plane.hit (⟨7, .fin (1/2), .fin (1/2), .fin 0, .fin 1, .fin 5⟩ : xy_plane Fl)
        ⟨⟨.fin (1/2), .fin (1/2), .fin 0⟩, ⟨.fin 0, .fin 0, .fin 1⟩⟩ (.fin 0) (.fin 100)
        ⟨.fin 0, ⟨.fin 0, .fin 0, .fin 0⟩, ⟨.fin 0, .fin 0, .fin 0⟩, 0, .fin 0, .fin 0, true⟩).2.u ≤ 1)) ∧
    ((xy_plane.hit (⟨7, .fin 0, .fin 1, .fin 0, .fin 1, .fin 5⟩ : xy_plane Fl)
        ⟨⟨.fin (1/2), .fin (1/2), .fin 5⟩, ⟨.fin 1, .fin 0, .fin 0⟩⟩ (.fin 0) (.fin 100)
        ⟨.fin 0, ⟨.fin 0, .fin 0, .fin 0⟩, ⟨.fin 0, .fin 0, .fin 0⟩, 0, .fin 0, .fin 0, true⟩).1 = true ∧
      (xy_plane.hit (⟨7, .fin 0, .fin 1, .fin 0, .fin 1, .fin 5⟩ : xy_plane Fl)
        ⟨⟨.fin (1/2), .fin (1/2), .fin 5⟩, ⟨.fin 1, .fin 0, .fin 0⟩⟩ (.fin 0) (.fin 100)
        ⟨.fin 0, ⟨.fin 0, .fin 0, .fin 0⟩, ⟨.fin 0, .fin 0, .fin 0⟩, 0, .fin 0, .fin 0, true⟩).2.u = Fl.nan ∧
      (xy_plane.hit (⟨7, .fin 0, .fin 1, .fin 0, .fin 1, .fin 5⟩ : xy_plane Fl)
        ⟨⟨.fin (1/2), .fin (1/2), .fin 5⟩, ⟨.fin 1, .fin 0, .fin 0⟩⟩ (.fin 0) (.fin 100)
        ⟨.fin 0, ⟨.fin 0, .fin 0, .fin 0⟩, ⟨.fin 0, .fin 0, .fin 0⟩, 0, .fin 0, .fin 0, true⟩).2.v = Fl.nan ∧
      ¬ (0 ≤ (xy_plane.hit (⟨7, .fin 0, .fin 1, .fin 0, .fin 1, .fin 5⟩ : xy_plane Fl)
        ⟨⟨.fin (1/2), .fin (1/2), .fin 5⟩, ⟨.fin 1, .fin 0, .fin 0⟩⟩ (.fin 0) (.fin 100)
        ⟨.fin 0, ⟨.fin 0, .fin 0, .fin 0⟩, ⟨.fin 0, .fin 0, .fin 0⟩, 0, .fin 0, .fin 0, true⟩).2.u) ∧
      ¬ (0 ≤ (xy_plane.hit (⟨7, .fin 0, .fin 1, .fin 0, .fin 1, .fin 5⟩ : xy_plane Fl)
        ⟨⟨.fin (1/2), .fin (1/2), .fin 5⟩, ⟨.fin 1, .fin 0, .fin 0⟩⟩ (.fin 0) (.fin 100)
        ⟨.fin 0, ⟨.fin 0, .fin 0, .fin 0⟩, ⟨.fin 0, .fin 0, .fin 0⟩, 0, .fin 0, .fin 0, true⟩).2.v)) := by
  decide!

/-- C3, amended: for each of the three rectangles with `lo1 < hi1` and
`lo2 < hi2` and every ray whose direction component along the fixed axis is
nonzero, whenever `hit` returns true the stored texture coordinates are
`u = (a - lo1)/(hi1 - lo1)` and `v = (b - lo2)/(hi2 - lo2)` for the free-axis
hit coordinates `a`, `b`, they satisfy `0 <= u <= 1` and `0 <= v <= 1`, a hit at
the lower-bound corner gives `(0,0)` and a hit at the upper-bound corner gives
`(1,1)`. -/
theorem texture_coordinates_in_unit_square :
    (∀ (self : xy_plane α) (r : ray α) (t_min t_max : α) (recd : hit_record α),
      r.direction.z ≠ 0 → self.x0 < self.x1 → self.y0 < self.y1 →
      (self.hit r t_min t_max recd).1 = true →
      ((self.hit r t_min t_max recd).2.u =
          (r.origin.x + (self.k - r.origin.z) / r.direction.z * r.direction.x - self.x0) /
            (self.x1 - self.x0) ∧
        (self.hit r t_min t_max recd).2.v =
          (r.origin.y + (self.k - r.origin.z) / r.direction.z * r.direction.y - self.y0) /
            (self.y1 - self.y0)) ∧
      (0 ≤ (self.hit r t_min t_max recd).2.u ∧ (self.hit r t_min t_max recd).2.u ≤ 1 ∧
        0 ≤ (self.hit r t_min t_max recd).2.v ∧ (self.hit r t_min t_max recd).2.v ≤ 1) ∧
      (r.origin.x + (self.k - r.origin.z) / r.direction.z * r.direction.x = self.x0 →
        r.origin.y + (self.k - r.origin.z) / r.direction.z * r.direction.y = self.y0 →
        (self.hit r t_min t_max recd).2.u = 0 ∧ (self.hit r t_min t_max recd).2.v = 0) ∧
      (r.origin.x + (self.k - r.origin.z) / r.direction.z * r.direction.x = self.x1 →
        r.origin.y + (self.k - r.origin.z) / r.direction.z * r.direction.y = self.y1 →
        (self.hit r t_min t_max recd).2.u = 1 ∧ (self.hit r t_min t_max recd).2.v = 1)) ∧
    (∀ (self : xz_plane α) (r : ray α) (t_min t_max : α) (recd : hit_record α),
      r.direction.y ≠ 0 → self.x0 < self.x1 → self.z0 < self.z1 →
      (self.hit r t_min t_max recd).1 = true →
      ((self.hit r t_min t_max recd).2.u =
          (r.origin.x + (self.k - r.origin.y) / r.direction.y * r.direction.x - self.x0) /
            (self.x1 - self.x0) ∧
        (self.hit r t_min t_max recd).2.v =
          (r.origin.z + (self.k - r.origin.y) / r.direction.y * r.direction.z - self.z0) /
            (self.z1 - self.z0)) ∧
      (0 ≤ (self.hit r t_min t_max recd).2.u ∧ (self.hit r t_min t_max recd).2.u ≤ 1 ∧
        0 ≤ (self.hit r t_min t_max recd).2.v ∧ (self.hit r t_min t_max recd).2.v ≤ 1) ∧
      (r.origin.x + (self.k - r.origin.y) / r.direction.y * r.direction.x = self.x0 →
        r.origin.z + (self.k - r.origin.y) / r.direction.y * r.direction.z = self.z0 →
        (self.hit r t_min t_max recd).2.u = 0 ∧ (self.hit r t_min t_max recd).2.v = 0) ∧
      (r.origin.x + (self.k - r.origin.y) / r.direction.y * r.direction.x = self.x1 →
        r.origin.z + (self.k - r.origin.y) / r.direction.y * r.direction.z = self.z1 →
        (self.hit r t_min t_max recd).2.u = 1 ∧ (self.hit r t_min t_max recd).2.v = 1)) ∧
    (∀ (self : yz_plane α) (r : ray α) (t_min t_max : α) (recd : hit_record α),
      r.direction.x ≠ 0 → self.y0 < self.y1 → self.z0 < self.z1 →
      (self.hit r t_min t_max recd).1 = true →
      ((self.hit r t_min t_max recd).2.u =
          (r.origin.y + (self.k - r.origin.x) / r.direction.x * r.direction.y - self.y0) /
            (self.y1 - self.y0) ∧
        (self.hit r t_min t_max recd).2.v =
          (r.origin.z + (self.k - r.origin.x) / r.direction.x * r.direction.z - self.z0) /
            (self.z1 - self.z0)) ∧
      (0 ≤ (self.hit r t_min t_max recd).2.u ∧ (self.hit r t_min t_max recd).2.u ≤ 1 ∧
        0 ≤ (self.hit r t_min t_max recd).2.v ∧ (self.hit r t_min t_max recd).2.v ≤ 1) ∧
      (r.origin.y + (self.k - r.origin.x) / r.direction.x * r.direction.y = self.y0 →
        r.origin.z + (self.k - r.origin.x) / r.direction.x * r.direction.z = self.z0 →
        (self.hit r t_min t_max recd).2.u = 0 ∧ (self.hit r t_min t_max recd).2.v = 0) ∧
      (r.origin.y + (self.k - r.origin.x) / r.direction.x * r.direction.y = self.y1 →
        r.origin.z + (self.k - r.origin.x) / r.direction.x * r.direction.z = self.z1 →
        (self.hit r t_min t_max recd).2.u = 1 ∧ (self.hit r t_min t_max recd).2.v = 1)) := by
  refine ⟨?_, ?_, ?_⟩
  · intro self r t_min t_max recd _ ha hb hit
    have hin := (xy_plane_hit_fst_iff self r t_min t_max recd).mp hit
    rw [xy_plane_hit_snd_of_true self r t_min t_max recd hit]
    have hb4 := hin.2
    simp only [not_or, not_lt, gt_iff_lt] at hb4
    obtain ⟨h1, h2, h3, h4⟩ := hb4
    have ha0 := sub_pos.mpr ha
    have hb0 := sub_pos.mpr hb
    refine ⟨⟨rfl, rfl⟩, ⟨?_, ?_, ?_, ?_⟩, ?_, ?_⟩
    · exact div_nonneg (sub_nonneg.mpr h1) ha0.le
    · exact (div_le_one ha0).mpr (sub_le_sub_right h2 _)
    · exact div_nonneg (sub_nonneg.mpr h3) hb0.le
    · exact (div_le_one hb0).mpr (sub_le_sub_right h4 _)
    · intro ea eb
      simp only [ea, eb, sub_self, zero_div, and_self]
    · intro ea eb
      simp only [ea, eb]
      exact ⟨div_self ha0.ne.symm, div_self hb0.ne.symm⟩
  · intro self r t_min t_max recd _ ha hb hit
    have hin := (xz_plane_hit_fst_iff self r t_min t_max recd).mp hit
    rw [xz_plane_hit_snd_of_true self r t_min t_max recd hit]
    have hb4 := hin.2
    simp only [not_or, not_lt, gt_iff_lt] at hb4
    obtain ⟨h1, h2, h3, h4⟩ := hb4
    have ha0 := sub_pos.mpr ha
    have hb0 := sub_pos.mpr hb
    refine ⟨⟨rfl, rfl⟩, ⟨?_, ?_, ?_, ?_⟩, ?_, ?_⟩
    · exact div_nonneg (sub_nonneg.mpr h1) ha0.le
    · exact (div_le_one ha0).mpr (sub_le_sub_right h2 _)
    · exact div_nonneg (sub_nonneg.mpr h3) hb0.le
    · exact (div_le_one hb0).mpr (sub_le_sub_right h4 _)
    · intro ea eb
      simp only [ea, eb, sub_self, zero_div, and_self]
    · intro ea eb
      simp only [ea, eb]
      exact ⟨div_self ha0.ne.symm, div_self hb0.ne.symm⟩
  · intro self r t_min t_max recd _ ha hb hit
    have hin := (yz_plane_hit_fst_iff self r t_min t_max recd).mp hit
    rw [yz_plane_hit_snd_of_true self r t_min t_max recd hit]
    have hb4 := hin.2
    simp only [not_or, not_lt, gt_iff_lt] at hb4
    obtain ⟨h1, h2, h3, h4⟩ := hb4
    have ha0 := sub_pos.mpr ha
    have hb0 := sub_pos.mpr hb
    refine ⟨⟨rfl, rfl⟩, ⟨?_, ?_, ?_, ?_⟩, ?_, ?_⟩
    · exact div_nonneg (sub_nonneg.mpr h1) ha0.le
    · exact (div_le_one ha0).mpr (sub_le_sub_right h2 _)
    · exact div_nonneg (sub_nonneg.mpr h3) hb0.le
    · exact (div_le_one hb0).mpr (sub_le_sub_right h4 _)
    · intro ea eb
      simp only [ea, eb, sub_self, zero_div, and_self]
    · intro ea eb
      simp only [ea, eb]
      exact ⟨div_self ha0.ne.symm, div_self hb0.ne.symm⟩

/-- C3 on one hit of each rectangle: the hit at `(0.5, 0.5, 5)` of the unit
z-rectangle of the specification has `u = v = 0.5`; the hits at
`(1/4, 5, 3/4)` of a y-rectangle and at `(3, 1/4, 3/4)` of an x-rectangle have
`(u, v) = (1/4, 3/4)`. -/
theorem texture_coordinates_in_unit_square_witness :
    ((xy_plane.hit (⟨7, 0, 1, 0, 1, 5⟩ : xy_plane ℚ) ⟨⟨1/2, 1/2, 0⟩, ⟨0, 0, 1⟩⟩ 0 100
        ⟨0, ⟨0, 0, 0⟩, ⟨0, 0, 0⟩, 0, 0, 0, true⟩).2.u = 1/2 ∧
      (xy_plane.hit (⟨7, 0, 1, 0, 1, 5⟩ : xy_plane ℚ) ⟨⟨1/2, 1/2, 0⟩, ⟨0, 0, 1⟩⟩ 0 100
        ⟨0, ⟨0, 0, 0⟩, ⟨0, 0, 0⟩, 0, 0, 0, true⟩).2.v = 1/2) ∧
    ((xz_plane.hit (⟨8, 0, 1, 0, 1, 5⟩ : xz_plane ℚ) ⟨⟨1/4, 7, 3/4⟩, ⟨0, -1, 0⟩⟩ 0 100
        ⟨0, ⟨0, 0, 0⟩, ⟨0, 0, 0⟩, 0, 0, 0, true⟩).2.u = 1/4 ∧
      (xz_plane.hit (⟨8, 0, 1, 0, 1, 5⟩ : xz_plane ℚ) ⟨⟨1/4, 7, 3/4⟩, ⟨0, -1, 0⟩⟩ 0 100
        ⟨0, ⟨0, 0, 0⟩, ⟨0, 0, 0⟩, 0, 0, 0, true⟩).2.v = 3/4) ∧
    ((yz_plane.hit (⟨9, 0, 1, 0, 1, 3⟩ : yz_plane ℚ) ⟨⟨0, 1/4, 3/4⟩, ⟨2, 0, 0⟩⟩ 0 100
        ⟨0, ⟨0, 0, 0⟩, ⟨0, 0, 0⟩, 0, 0, 0, true⟩).2.u = 1/4 ∧
      (yz_plane.hit (⟨9, 0, 1, 0, 1, 3⟩ : yz_plane ℚ) ⟨⟨0, 1/4, 3/4⟩, ⟨2, 0, 0⟩⟩ 0 100
        ⟨0, ⟨0, 0, 0⟩, ⟨0, 0, 0⟩, 0, 0, 0, true⟩).2.v = 3/4) := by
  have hxy := (texture_coordinates_in_unit_square (α := ℚ)).1 ⟨7, 0, 1, 0, 1, 5⟩
    ⟨⟨1/2, 1/2, 0⟩, ⟨0, 0, 1⟩⟩ 0 100 ⟨0, ⟨0, 0, 0⟩, ⟨0, 0, 0⟩, 0, 0, 0, true⟩
    (by norm_num) (by norm_num) (by norm_num) (by decide!)
  have hxz := (texture_coordinates_in_unit_square (α := ℚ)).2.1 ⟨8, 0, 1, 0, 1, 5⟩
    ⟨⟨1/4, 7, 3/4⟩, ⟨0, -1, 0⟩⟩ 0 100 ⟨0, ⟨0, 0, 0⟩, ⟨0, 0, 0⟩, 0, 0, 0, true⟩
    (by norm_num) (by norm_num) (by norm_num) (by decide!)
  have hyz := (texture_coordinates_in_unit_square (α := ℚ)).2.2 ⟨9, 0, 1, 0, 1, 3⟩
    ⟨⟨0, 1/4, 3/4⟩, ⟨2, 0, 0⟩⟩ 0 100 ⟨0, ⟨0, 0, 0⟩, ⟨0, 0, 0⟩, 0, 0, 0, true⟩
    (by norm_num) (by norm_num) (by norm_num) (by decide!)
  refine ⟨⟨?_, ?_⟩, ⟨?_, ?_⟩, ⟨?_, ?_⟩⟩
  · rw [hxy.1.1]; norm_num
  · rw [hxy.1.2]; norm_num
  · rw [hxz.1.1]; norm_num
  · rw [hxz.1.2]; norm_num
  · rw [hyz.1.1]; norm_num
  · rw [hyz.1.2]; norm_num

/-- C4: after `set_face_normal(ray, outward_normal)`, `front_face` is true
exactly when `dot(ray.direction, outward_normal) < 0`, `normal` is
`outward_normal` when `front_face` is true and `-outward_normal` otherwise, and
`dot(ray.direction, rec.normal) <= 0`. -/
theorem set_face_normal_orientation (recd : hit_record α) (r : ray α)
    (outward_normal : vec3 α) :
    ((recd.set_face_normal r outward_normal).front_face = true ↔
        dot r.direction outward_normal < 0) ∧
    (recd.set_face_normal r outward_normal).normal =
      (if (recd.set_face_normal r outward_normal).front_face = true then outward_normal
        else -outward_normal) ∧
    dot r.direction (recd.set_face_normal r outward_normal).normal ≤ 0 := by
  simp only [hit_record.set_face_normal, decide_eq_true_eq, true_and]
  by_cases h : dot r.direction outward_normal < 0
  · simp only [h, if_true]
    exact h.le
  · simp only [h, if_false]
    have h0 : 0 ≤ dot r.direction outward_normal := not_lt.mp h
    have e : dot r.direction (-outward_normal) = -dot r.direction outward_normal := by
      simp only [dot, vec3.neg_def]
      ring
    rw [e]
    exact neg_nonpos.mpr h0

end PlaneClaims

/-! ## Claims that hold for every scalar type -/

section ControlFlowClaims

variable {α : Type} [Add α] [Sub α] [Mul α] [Div α] [Neg α] [Zero α] [One α]
  [LT α] [DecidableRel ((· < ·) : α → α → Prop)]

/-- C2: for each of the three rectangles and every ray whose direction
component along the fixed axis is nonzero, if the analytic `t` is below `t_min`
or above `t_max`, or a free-axis coordinate at `t` is below its lower or above
its upper bound, then `hit` returns false. -/
theorem hit_outside_rectangle :
    (∀ (self : xy_plane α) (r : ray α) (t_min t_max : α) (recd : hit_record α),
      r.direction.z ≠ 0 →
      ((self.k - r.origin.z) / r.direction.z < t_min ∨ (self.k - r.origin.z) / r.direction.z > t_max ∨
        r.origin.x + (self.k - r.origin.z) / r.direction.z * r.direction.x < self.x0 ∨
        r.origin.x + (self.k - r.origin.z) / r.direction.z * r.direction.x > self.x1 ∨
        r.origin.y + (self.k - r.origin.z) / r.direction.z * r.direction.y < self.y0 ∨
        r.origin.y + (self.k - r.origin.z) / r.direction.z * r.direction.y > self.y1) →
      (self.hit r t_min t_max recd).1 = false) ∧
    (∀ (self : xz_plane α) (r : ray α) (t_min t_max : α) (recd : hit_record α),
      r.direction.y ≠ 0 →
      ((self.k - r.origin.y) / r.direction.y < t_min ∨ (self.k - r.origin.y) / r.direction.y > t_max ∨
        r.origin.x + (self.k - r.origin.y) / r.direction.y * r.direction.x < self.x0 ∨
        r.origin.x + (self.k - r.origin.y) / r.direction.y * r.direction.x > self.x1 ∨
        r.origin.z + (self.k - r.origin.y) / r.direction.y * r.direction.z < self.z0 ∨
        r.origin.z + (self.k - r.origin.y) / r.direction.y * r.direction.z > self.z1) →
      (self.hit r t_min t_max recd).1 = false) ∧
    (∀ (self : yz_plane α) (r : ray α) (t_min t_max : α) (recd : hit_record α),
      r.direction.x ≠ 0 →
      ((self.k - r.origin.x) / r.direction.x < t_min ∨ (self.k - r.origin.x) / r.direction.x > t_max ∨
        r.origin.y + (self.k - r.origin.x) / r.direction.x * r.direction.y < self.y0 ∨
        r.origin.y + (self.k - r.origin.x) / r.direction.x * r.direction.y > self.y1 ∨
        r.origin.z + (self.k - r.origin.x) / r.direction.x * r.direction.z < self.z0 ∨
        r.origin.z + (self.k - r.origin.x) / r.direction.x * r.direction.z > self.z1) →
      (self.hit r t_min t_max recd).1 = false) := by
  refine ⟨?_, ?_, ?_⟩
  · intro self r t_min t_max recd _ h
    rw [← Bool.not_eq_true, xy_plane_hit_fst_iff]
    tauto
  · intro self r t_min t_max recd _ h
    rw [← Bool.not_eq_true, xz_plane_hit_fst_iff]
    tauto
  · intro self r t_min t_max recd _ h
    rw [← Bool.not_eq_true, yz_plane_hit_fst_iff]
    tauto

/-- C2 at a concrete input: a ray passing beside the unit rectangle is
rejected. -/
theorem hit_outside_rectangle_witness :
    (xy_plane.hit (⟨7, 0, 1, 0, 1, 5⟩ : xy_plane ℚ) ⟨⟨2, 1/2, 0⟩, ⟨0, 0, 1⟩⟩ 0 100
        ⟨0, ⟨0, 0, 0⟩, ⟨0, 0, 0⟩, 0, 0, 0, true⟩).1 = false :=
  (hit_outside_rectangle (α := ℚ)).1 ⟨7, 0, 1, 0, 1, 5⟩ ⟨⟨2, 1/2, 0⟩, ⟨0, 0, 1⟩⟩ 0 100
    ⟨0, ⟨0, 0, 0⟩, ⟨0, 0, 0⟩, 0, 0, 0, true⟩ (by norm_num) (by norm_num)

/-- C6: for each rectangle `hit` returns true exactly when neither rejection
test fires, and whenever it returns true every one of the seven fields `t`,
`p`, `normal`, `mat_ptr`, `u`, `v`, `front_face` holds a value computed from
the primitive and the ray alone, `rec.mat_ptr` is the material reference of the
primitive, and a call with any other initial record returns the same result. -/
theorem hit_populates_record :
    (∀ (self : xy_plane α) (r : ray α) (t_min t_max : α) (recd : hit_record α),
      ((self.hit r t_min t_max recd).1 = true ↔
        (¬ ((self.k - r.origin.z) / r.direction.z < t_min ∨
            (self.k - r.origin.z) / r.direction.z > t_max) ∧
          ¬ (r.origin.x + (self.k - r.origin.z) / r.direction.z * r.direction.x < self.x0 ∨
            r.origin.x + (self.k - r.origin.z) / r.direction.z * r.direction.x > self.x1 ∨
            r.origin.y + (self.k - r.origin.z) / r.direction.z * r.direction.y < self.y0 ∨
            r.origin.y + (self.k - r.origin.z) / r.direction.z * r.direction.y > self.y1))) ∧
      ((self.hit r t_min t_max recd).1 = true →
        (self.hit r t_min t_max recd).2 =
          { t := (self.k - r.origin.z) / r.direction.z
            p := r.point_at_parameter ((self.k - r.origin.z) / r.direction.z)
            normal := if dot r.direction (⟨0, 0, 1⟩ : vec3 α) < 0 then ⟨0, 0, 1⟩ else -⟨0, 0, 1⟩
            mat_ptr := self.mat_ptr
            u := (r.origin.x + (self.k - r.origin.z) / r.direction.z * r.direction.x - self.x0) /
                  (self.x1 - self.x0)
            v := (r.origin.y + (self.k - r.origin.z) / r.direction.z * r.direction.y - self.y0) /
                  (self.y1 - self.y0)
            front_face := decide (dot r.direction (⟨0, 0, 1⟩ : vec3 α) < 0) } ∧
        (self.hit r t_min t_max recd).2.mat_ptr = self.mat_ptr ∧
        ∀ other : hit_record α, self.hit r t_min t_max other = (self.hit r t_min t_max recd))) ∧
    (∀ (self : xz_plane α) (r : ray α) (t_min t_max : α) (recd : hit_record α),
      ((self.hit r t_min t_max recd).1 = true ↔
        (¬ ((self.k - r.origin.y) / r.direction.y < t_min ∨
            (self.k - r.origin.y) / r.direction.y > t_max) ∧
          ¬ (r.origin.x + (self.k - r.origin.y) / r.direction.y * r.direction.x < self.x0 ∨
            r.origin.x + (self.k - r.origin.y) / r.direction.y * r.direction.x > self.x1 ∨
            r.origin.z + (self.k - r.origin.y) / r.direction.y * r.direction.z < self.z0 ∨
            r.origin.z + (self.k - r.origin.y) / r.direction.y * r.direction.z > self.z1))) ∧
      ((self.hit r t_min t_max recd).1 = true →
        (self.hit r t_min t_max recd).2 =
          { t := (self.k - r.origin.y) / r.direction.y
            p := r.point_at_parameter ((self.k - r.origin.y) / r.direction.y)
            normal := if dot r.direction (⟨0, 1, 0⟩ : vec3 α) < 0 then ⟨0, 1, 0⟩ else -⟨0, 1, 0⟩
            mat_ptr := self.mat_ptr
            u := (r.origin.x + (self.k - r.origin.y) / r.direction.y * r.direction.x - self.x0) /
                  (self.x1 - self.x0)
            v := (r.origin.z + (self.k - r.origin.y) / r.direction.y * r.direction.z - self.z0) /
                  (self.z1 - self.z0)
            front_face := decide (dot r.direction (⟨0, 1, 0⟩ : vec3 α) < 0) } ∧
        (self.hit r t_min t_max recd).2.mat_ptr = self.mat_ptr ∧
        ∀ other : hit_record α, self.hit r t_min t_max other = (self.hit r t_min t_max recd))) ∧
    (∀ (self : yz_plane α) (r : ray α) (t_min t_max : α) (recd : hit_record α),
      ((self.hit r t_min t_max recd).1 = true ↔
        (¬ ((self.k - r.origin.x) / r.direction.x < t_min ∨
            (self.k - r.origin.x) / r.direction.x > t_max) ∧
          ¬ (r.origin.y + (self.k - r.origin.x) / r.direction.x * r.direction.y < self.y0 ∨
            r.origin.y + (self.k - r.origin.x) / r.direction.x * r.direction.y > self.y1 ∨
            r.origin.z + (self.k - r.origin.x) / r.direction.x * r.direction.z < self.z0 ∨
            r.origin.z + (self.k - r.origin.x) / r.direction.x * r.direction.z > self.z1))) ∧
      ((self.hit r t_min t_max recd).1 = true →
        (self.hit r t_min t_max recd).2 =
          { t := (self.k - r.origin.x) / r.direction.x
            p := r.point_at_parameter ((self.k - r.origin.x) / r.direction.x)
            normal := if dot r.direction (⟨1, 0, 0⟩ : vec3 α) < 0 then ⟨1, 0, 0⟩ else -⟨1, 0, 0⟩
            mat_ptr := self.mat_ptr
            u := (r.origin.y + (self.k - r.origin.x) / r.direction.x * r.direction.y - self.y0) /
                  (self.y1 - self.y0)
            v := (r.origin.z + (self.k - r.origin.x) / r.direction.x * r.direction.z - self.z0) /
                  (self.z1 - self.z0)
            front_face := decide (dot r.direction (⟨1, 0, 0⟩ : vec3 α) < 0) } ∧
        (self.hit r t_min t_max recd).2.mat_ptr = self.mat_ptr ∧
        ∀ other : hit_record α, self.hit r t_min t_max other = (self.hit r t_min t_max recd))) := by
  refine ⟨?_, ?_, ?_⟩
  · intro self r t_min t_max recd
    refine ⟨xy_plane_hit_fst_iff self r t_min t_max recd, ?_⟩
    intro hit
    have hin := (xy_plane_hit_fst_iff self r t_min t_max recd).mp hit
    have e := xy_plane_hit_snd_of_true self r t_min t_max recd hit
    refine ⟨e, ?_, ?_⟩
    · rw [e]
    · intro other
      have hit2 : (self.hit r t_min t_max other).1 = true :=
        (xy_plane_hit_fst_iff self r t_min t_max other).mpr hin
      have e2 := xy_plane_hit_snd_of_true self r t_min t_max other hit2
      exact Prod.ext (hit2.trans hit.symm) (e2.trans e.symm)
  · intro self r t_min t_max recd
    refine ⟨xz_plane_hit_fst_iff self r t_min t_max recd, ?_⟩
    intro hit
    have hin := (xz_plane_hit_fst_iff self r t_min t_max recd).mp hit
    have e := xz_plane_hit_snd_of_true self r t_min t_max recd hit
    refine ⟨e, ?_, ?_⟩
    · rw [e]
    · intro other
      have hit2 : (self.hit r t_min t_max other).1 = true :=
        (xz_plane_hit_fst_iff self r t_min t_max other).mpr hin
      have e2 := xz_plane_hit_snd_of_true self r t_min t_max other hit2
      exact Prod.ext (hit2.trans hit.symm) (e2.trans e.symm)
  · intro self r t_min t_max recd
    refine ⟨yz_plane_hit_fst_iff self r t_min t_max recd, ?_⟩
    intro hit
    have hin := (yz_plane_hit_fst_iff self r t_min t_max recd).mp hit
    have e := yz_plane_hit_snd_of_true self r t_min t_max recd hit
    refine ⟨e, ?_, ?_⟩
    · rw [e]
    · intro other
      have hit2 : (self.hit r t_min t_max other).1 = true :=
        (yz_plane_hit_fst_iff self r t_min t_max other).mpr hin
      have e2 := yz_plane_hit_snd_of_true self r t_min t_max other hit2
      exact Prod.ext (hit2.trans hit.symm) (e2.trans e.symm)

/-- C6 on one hit of each rectangle, each started from two different records:
the record handed back is the same fully written record. -/
theorem hit_populates_record_witness :
    ((xy_plane.hit (⟨7, 0, 1, 0, 1, 5⟩ : xy_plane ℚ) ⟨⟨1/2, 1/2, 0⟩, ⟨0, 0, 1⟩⟩ 0 100
        ⟨0, ⟨0, 0, 0⟩, ⟨0, 0, 0⟩, 0, 0, 0, true⟩).2 =
        ⟨5, ⟨1/2, 1/2, 5⟩, ⟨0, 0, -1⟩, 7, 1/2, 1/2, false⟩ ∧
      xy_plane.hit (⟨7, 0, 1, 0, 1, 5⟩ : xy_plane ℚ) ⟨⟨1/2, 1/2, 0⟩, ⟨0, 0, 1⟩⟩ 0 100
          ⟨9, ⟨1, 2, 3⟩, ⟨4, 5, 6⟩, 3, 8, 9, false⟩ =
        (xy_plane.hit (⟨7, 0, 1, 0, 1, 5⟩ : xy_plane ℚ) ⟨⟨1/2, 1/2, 0⟩, ⟨0, 0, 1⟩⟩ 0 100
        ⟨0, ⟨0, 0, 0⟩, ⟨0, 0, 0⟩, 0, 0, 0, true⟩)) ∧
    ((xz_plane.hit (⟨8, 0, 1, 0, 1, 5⟩ : xz_plane ℚ) ⟨⟨1/4, 7, 3/4⟩, ⟨0, -1, 0⟩⟩ 0 100
        ⟨0, ⟨0, 0, 0⟩, ⟨0, 0, 0⟩, 0, 0, 0, true⟩).2 =
        ⟨2, ⟨1/4, 5, 3/4⟩, ⟨0, 1, 0⟩, 8, 1/4, 3/4, true⟩ ∧
      xz_plane.hit (⟨8, 0, 1, 0, 1, 5⟩ : xz_plane ℚ) ⟨⟨1/4, 7, 3/4⟩, ⟨0, -1, 0⟩⟩ 0 100
          ⟨9, ⟨1, 2, 3⟩, ⟨4, 5, 6⟩, 3, 8, 9, false⟩ =
        (xz_plane.hit (⟨8, 0, 1, 0, 1, 5⟩ : xz_plane ℚ) ⟨⟨1/4, 7, 3/4⟩, ⟨0, -1, 0⟩⟩ 0 100
        ⟨0, ⟨0, 0, 0⟩, ⟨0, 0, 0⟩, 0, 0, 0, true⟩)) ∧
    ((yz_plane.hit (⟨9, 0, 1, 0, 1, 3⟩ : yz_plane ℚ) ⟨⟨0, 1/4, 3/4⟩, ⟨2, 0, 0⟩⟩ 0 100
        ⟨0, ⟨0, 0, 0⟩, ⟨0, 0, 0⟩, 0, 0, 0, true⟩).2 =
        ⟨3/2, ⟨3, 1/4, 3/4⟩, ⟨-1, 0, 0⟩, 9, 1/4, 3/4, false⟩ ∧
      yz_plane.hit (⟨9, 0, 1, 0, 1, 3⟩ : yz_plane ℚ) ⟨⟨0, 1/4, 3/4⟩, ⟨2, 0, 0⟩⟩ 0 100
          ⟨9, ⟨1, 2, 3⟩, ⟨4, 5, 6⟩, 3, 8, 9, false⟩ =
        (yz_plane.hit (⟨9, 0, 1, 0, 1, 3⟩ : yz_plane ℚ) ⟨⟨0, 1/4, 3/4⟩, ⟨2, 0, 0⟩⟩ 0 100
        ⟨0, ⟨0, 0, 0⟩, ⟨0, 0, 0⟩, 0, 0, 0, true⟩)) := by
  have hxy := ((hit_populates_record (α := ℚ)).1 ⟨7, 0, 1, 0, 1, 5⟩
    ⟨⟨1/2, 1/2, 0⟩, ⟨0, 0, 1⟩⟩ 0 100 ⟨0, ⟨0, 0, 0⟩, ⟨0, 0, 0⟩, 0, 0, 0, true⟩).2 (by decide!)
  have hxz := ((hit_populates_record (α := ℚ)).2.1 ⟨8, 0, 1, 0, 1, 5⟩
    ⟨⟨1/4, 7, 3/4⟩, ⟨0, -1, 0⟩⟩ 0 100 ⟨0, ⟨0, 0, 0⟩, ⟨0, 0, 0⟩, 0, 0, 0, true⟩).2 (by decide!)
  have hyz := ((hit_populates_record (α := ℚ)).2.2 ⟨9, 0, 1, 0, 1, 3⟩
    ⟨⟨0, 1/4, 3/4⟩, ⟨2, 0, 0⟩⟩ 0 100 ⟨0, ⟨0, 0, 0⟩, ⟨0, 0, 0⟩, 0, 0, 0, true⟩).2 (by decide!)
  refine ⟨⟨?_, hxy.2.2 _⟩, ⟨?_, hxz.2.2 _⟩, ⟨?_, hyz.2.2 _⟩⟩
  · rw [hxy.1]
    norm_num [ray.point_at_parameter, dot]
  · rw [hxz.1]
    norm_num [ray.point_at_parameter, dot]
  · rw [hyz.1]
    norm_num [ray.point_at_parameter, dot]

end ControlFlowClaims

/-! ## Materials in exact arithmetic -/

section MaterialClaims

variable {α : Type} [LinearOrderedField α]

/-- C7 as stated fails in binary32 arithmetic, where
`(rec.p + rec.normal + s) - rec.p` is rounded at every step.  First input:
at the hit point `(555, 277.5, 400.25)` with normal `(0, 0, -1)` the draws
`11184811/2^24` (the binary32 value nearest to `2/3`), `1/2`, `1/4` give the
sample `s = (2796203/2^23, 0, -1/2)`; `555 + 2796203/2^23` rounds to
`555 + 5461/2^14`, so the stored direction is `(5461/2^14, 0, -3/2)` and not
`rec.normal + s = (2796203/2^23, 0, -3/2)`.  Second input: at the hit point
`(2^25, 2^25, 2^25)` the sample `(1/2, 0, -1/2)` is absorbed entirely and the
stored direction is `(0, 0, 0)`. -/
theorem lambertian_direction_rounding_counterexample :
    ((random_in_unit_sphere 1 (⟨fun n => if n = 0 then ⟨11184811/16777216⟩ else if n = 1 then ⟨1/2⟩ else ⟨1/4⟩, 0⟩ : curandState F32)).map (fun o => o.1) =
        some ⟨⟨2796203/8388608⟩, ⟨0⟩, ⟨-1/2⟩⟩ ∧
      (lambertian.scatter (⟨⟨⟨1/4⟩, ⟨1/2⟩, ⟨3/4⟩⟩⟩ : lambertian F32) 1 ⟨⟨0, 0, 0⟩, ⟨0, 0, 1⟩⟩
          ⟨⟨5⟩, ⟨⟨555⟩, ⟨555/2⟩, ⟨1601/4⟩⟩, ⟨⟨0⟩, ⟨0⟩, ⟨-1⟩⟩, 7, ⟨1/2⟩, ⟨1/2⟩, false⟩
          ⟨0, 0, 0⟩ ⟨⟨0, 0, 0⟩, ⟨0, 0, 0⟩⟩
          ⟨fun n => if n = 0 then ⟨11184811/16777216⟩ else if n = 1 then ⟨1/2⟩ else ⟨1/4⟩, 0⟩).map
          (fun o => (o.ret, o.scattered.origin, o.scattered.direction)) =
        some (true, ⟨⟨555⟩, ⟨555/2⟩, ⟨1601/4⟩⟩, ⟨⟨5461/16384⟩, ⟨0⟩, ⟨-3/2⟩⟩) ∧
      (⟨⟨0⟩, ⟨0⟩, ⟨-1⟩⟩ + ⟨⟨2796203/8388608⟩, ⟨0⟩, ⟨-1/2⟩⟩ : vec3 F32) =
        ⟨⟨2796203/8388608⟩, ⟨0⟩, ⟨-3/2⟩⟩ ∧
      (⟨⟨5461/16384⟩, ⟨0⟩, ⟨-3/2⟩⟩ : vec3 F32) ≠
        ⟨⟨0⟩, ⟨0⟩, ⟨-1⟩⟩ + ⟨⟨2796203/8388608⟩, ⟨0⟩, ⟨-1/2⟩⟩) ∧
    ((random_in_unit_sphere 1 (⟨fun n => if n = 0 then ⟨3/4⟩ else if n = 1 then ⟨1/2⟩ else ⟨1/4⟩, 0⟩ : curandState F32)).map (fun o => o.1) =
        some ⟨⟨1/2⟩, ⟨0⟩, ⟨-1/2⟩⟩ ∧
      (lambertian.scatter (⟨⟨⟨1/4⟩, ⟨1/2⟩, ⟨3/4⟩⟩⟩ : lambertian F32) 1 ⟨⟨0, 0, 0⟩, ⟨0, 0, 1⟩⟩
          ⟨⟨5⟩, ⟨⟨33554432⟩, ⟨33554432⟩, ⟨33554432⟩⟩, ⟨⟨0⟩, ⟨0⟩, ⟨-1⟩⟩, 7, ⟨1/2⟩, ⟨1/2⟩, false⟩
          ⟨0, 0, 0⟩ ⟨⟨0, 0, 0⟩, ⟨0, 0, 0⟩⟩
          ⟨fun n => if n = 0 then ⟨3/4⟩ else if n = 1 then ⟨1/2⟩ else ⟨1/4⟩, 0⟩).map
          (fun o => (o.ret, o.scattered.origin, o.scattered.direction)) =
        some (true, ⟨⟨33554432⟩, ⟨33554432⟩, ⟨33554432⟩⟩, ⟨⟨0⟩, ⟨0⟩, ⟨0⟩⟩) ∧
      (⟨⟨0⟩, ⟨0⟩, ⟨-1⟩⟩ + ⟨⟨1/2⟩, ⟨0⟩, ⟨-1/2⟩⟩ : vec3 F32) = ⟨⟨1/2⟩, ⟨0⟩, ⟨-3/2⟩⟩ ∧
      (⟨⟨0⟩, ⟨0⟩, ⟨0⟩⟩ : vec3 F32) ≠ ⟨⟨0⟩, ⟨0⟩, ⟨-1⟩⟩ + ⟨⟨1/2⟩, ⟨0⟩, ⟨-1/2⟩⟩) := by
  decide!

/-- C7, amended: whenever the sampler returns a sample `s`,
`lambertian::scatter` returns true, sets `attenuation` to the albedo and
`scattered` to the ray from `rec.p` whose direction is
`(rec.p + rec.normal + s) - rec.p` as the arithmetic of the scalar type
evaluates it; in exact arithmetic that direction is `rec.normal + s`. -/
theorem lambertian_scatter_result :
    (∀ (β : Type) [Add β] [Sub β] [Mul β] [One β] [NatCast β] [LE β]
        [DecidableRel ((· ≤ ·) : β → β → Prop)] (self : lambertian β) (fuel : Nat)
        (r_in : ray β) (recd : hit_record β) (attenuation : vec3 β) (scattered : ray β)
        (local_rand_state st : curandState β) (s : vec3 β),
        random_in_unit_sphere fuel local_rand_state = some (s, st) →
        self.scatter fuel r_in recd attenuation scattered local_rand_state =
          some ⟨true, self.albedo, ⟨recd.p, recd.p + recd.normal + s - recd.p⟩, st⟩) ∧
      (∀ (γ : Type) [LinearOrderedField γ] (self : lambertian γ) (fuel : Nat)
        (r_in : ray γ) (recd : hit_record γ) (attenuation : vec3 γ) (scattered : ray γ)
        (local_rand_state st : curandState γ) (s : vec3 γ),
        random_in_unit_sphere fuel local_rand_state = some (s, st) →
        self.scatter fuel r_in recd attenuation scattered local_rand_state =
            some ⟨true, self.albedo, ⟨recd.p, recd.normal + s⟩, st⟩ ∧
          recd.p + recd.normal + s - recd.p = recd.normal + s) := by
  refine ⟨?_, ?_⟩
  · intro β _ _ _ _ _ _ _ self fuel r_in recd attenuation scattered local_rand_state st s hs
    simp only [lambertian.scatter, hs]
  · intro γ _ self fuel r_in recd attenuation scattered local_rand_state st s hs
    have e : recd.p + recd.normal + s - recd.p = recd.normal + s := by
      simp only [vec3.add_def, vec3.sub_def, add_sub_cancel_left, add_assoc]
    refine ⟨?_, e⟩
    simp only [lambertian.scatter, hs, e]

/-- C7 at a concrete input in exact arithmetic: the draws `3/4, 1/2, 1/4` give
the sample `(1/2, 0, -1/2)`, which is accepted at once, and the scattered ray
leaves `(1/2, 1/2, 5)` along `(1/2, 0, -3/2)`. -/
theorem lambertian_scatter_result_witness :
    (lambertian.scatter (⟨⟨1/5, 2/5, 3/5⟩⟩ : lambertian ℚ) 1 ⟨⟨0, 0, 0⟩, ⟨0, 0, 1⟩⟩
        ⟨5, ⟨1/2, 1/2, 5⟩, ⟨0, 0, -1⟩, 7, 1/2, 1/2, false⟩ ⟨0, 0, 0⟩ ⟨⟨0, 0, 0⟩, ⟨0, 0, 0⟩⟩
        ⟨fun n => if n = 0 then 3/4 else if n = 1 then 1/2 else 1/4, 0⟩).map
      (fun o => (o.ret, o.attenuation, o.scattered)) =
    some (true, ⟨1/5, 2/5, 3/5⟩, ⟨⟨1/2, 1/2, 5⟩, ⟨1/2, 0, -3/2⟩⟩) := by
  have h := (lambertian_scatter_result.2 ℚ (⟨⟨1/5, 2/5, 3/5⟩⟩ : lambertian ℚ) 1
    ⟨⟨0, 0, 0⟩, ⟨0, 0, 1⟩⟩ ⟨5, ⟨1/2, 1/2, 5⟩, ⟨0, 0, -1⟩, 7, 1/2, 1/2, false⟩ ⟨0, 0, 0⟩
    ⟨⟨0, 0, 0⟩, ⟨0, 0, 0⟩⟩ ⟨fun n => if n = 0 then 3/4 else if n = 1 then 1/2 else 1/4, 0⟩
    ⟨fun n => if n = 0 then 3/4 else if n = 1 then 1/2 else 1/4, 3⟩ ⟨1/2, 0, -1/2⟩
    (by norm_num [random_in_unit_sphere, RANDVEC3, curand_uniform, vec3.squared_length])).1
  rw [h]
  norm_num

/-- C8: whenever the sampler returns a sample `s`, `metal::scatter` returns
true, sets `attenuation` to the albedo and `scattered` to the ray from `rec.p`
with direction `reflect(unit_vector(r_in.direction), rec.normal) + fuzz * s`,
where `reflect(v, n) = v - 2*dot(v,n)*n`; with `fuzz = 0` the direction is the
reflection itself, whatever the sample. -/
theorem metal_scatter_result (unit_vector : vec3 α → vec3 α) (self : metal α) (fuel : Nat)
    (r_in : ray α) (recd : hit_record α) (attenuation : vec3 α) (scattered : ray α)
    (local_rand_state st : curandState α) (s : vec3 α)
    (hs : random_in_unit_sphere fuel local_rand_state = some (s, st)) :
    self.scatter unit_vector fuel r_in recd attenuation scattered local_rand_state =
        some ⟨true, self.albedo,
          ⟨recd.p, reflect (unit_vector r_in.direction) recd.normal + self.fuzz • s⟩, st⟩ ∧
      (∀ v n : vec3 α, reflect v n = v - (2 * dot v n) • n) ∧
      (self.fuzz = 0 →
        self.scatter unit_vector fuel r_in recd attenuation scattered local_rand_state =
          some ⟨true, self.albedo,
            ⟨recd.p, reflect (unit_vector r_in.direction) recd.normal⟩, st⟩) := by
  have e : self.scatter unit_vector fuel r_in recd attenuation scattered local_rand_state =
      some ⟨true, self.albedo,
        ⟨recd.p, reflect (unit_vector r_in.direction) recd.normal + self.fuzz • s⟩, st⟩ := by
    simp only [metal.scatter, hs]
  refine ⟨e, fun v n => rfl, fun h0 => ?_⟩
  rw [e, h0]
  simp only [vec3.smul_def, vec3.add_def, zero_mul, add_zero]

/-- C8 at a concrete input: a mirror (`fuzz = 0`) hit head-on along `(0, 0, 1)`
at a surface of normal `(0, 0, -1)` sends the ray back along `(0, 0, -1)`. -/
theorem metal_scatter_result_witness :
    (metal.scatter (fun v => v) (metal.ctor (⟨4/5, 4/5, 4/5⟩ : vec3 ℚ) 0) 1
        ⟨⟨1/2, 1/2, 0⟩, ⟨0, 0, 1⟩⟩
        ⟨5, ⟨1/2, 1/2, 5⟩, ⟨0, 0, -1⟩, 7, 1/2, 1/2, false⟩ ⟨0, 0, 0⟩ ⟨⟨0, 0, 0⟩, ⟨0, 0, 0⟩⟩
        ⟨fun n => if n = 0 then 3/4 else if n = 1 then 1/2 else 1/4, 0⟩).map
      (fun o => (o.ret, o.attenuation, o.scattered)) =
    some (true, ⟨4/5, 4/5, 4/5⟩, ⟨⟨1/2, 1/2, 5⟩, ⟨0, 0, -1⟩⟩) := by
  have h := (metal_scatter_result (fun v => v) (metal.ctor (⟨4/5, 4/5, 4/5⟩ : vec3 ℚ) 0) 1
    ⟨⟨1/2, 1/2, 0⟩, ⟨0, 0, 1⟩⟩ ⟨5, ⟨1/2, 1/2, 5⟩, ⟨0, 0, -1⟩, 7, 1/2, 1/2, false⟩ ⟨0, 0, 0⟩
    ⟨⟨0, 0, 0⟩, ⟨0, 0, 0⟩⟩ ⟨fun n => if n = 0 then 3/4 else if n = 1 then 1/2 else 1/4, 0⟩
    ⟨fun n => if n = 0 then 3/4 else if n = 1 then 1/2 else 1/4, 3⟩ ⟨1/2, 0, -1/2⟩
    (by norm_num [random_in_unit_sphere, RANDVEC3, curand_uniform, vec3.squared_length])).2.2
    (by norm_num [metal.ctor])
  rw [h]
  norm_num [metal.ctor, reflect, dot]

/-- C9: the constructor of `metal` stores `fuzz = min(f, 1)`, that is `f` when
`f < 1` and `1` otherwise, and stores the albedo it is given. -/
theorem metal_ctor_fuzz (a : vec3 α) (f : α) :
    (metal.ctor a f).fuzz = min f 1 ∧
      (f < 1 → (metal.ctor a f).fuzz = f) ∧
      (¬ f < 1 → (metal.ctor a f).fuzz = 1) ∧
      (metal.ctor a f).albedo = a := by
  refine ⟨?_, fun h => ?_, fun h => ?_, rfl⟩
  · by_cases h : f < 1
    · simp only [metal.ctor, h, if_true, min_eq_left h.le]
    · simp only [metal.ctor, h, if_false, min_eq_right (not_lt.mp h)]
  · simp only [metal.ctor, h, if_true]
  · simp only [metal.ctor, h, if_false]

/-- C9 at the input of the specification: fuzz `1.5` is stored as `1`. -/
theorem metal_ctor_fuzz_witness :
    (metal.ctor (⟨4/5, 4/5, 4/5⟩ : vec3 ℚ) (3/2)).fuzz = 1 :=
  (metal_ctor_fuzz (⟨4/5, 4/5, 4/5⟩ : vec3 ℚ) (3/2)).2.2.1 (by norm_num)

/-- C10 as stated fails: the constructor has no lower clamp, so the input
fuzz `-1` is stored as `-1`, which is below `0`. -/
theorem metal_ctor_fuzz_negative_counterexample :
    (metal.ctor (⟨4/5, 4/5, 4/5⟩ : vec3 ℚ) (-1)).fuzz = -1 ∧
      ¬ (0 ≤ (metal.ctor (⟨4/5, 4/5, 4/5⟩ : vec3 ℚ) (-1)).fuzz) := by
  norm_num [metal.ctor]

/-- C10, amended: the stored fuzz is clamped from above only: it is `<= 1` for
every input, and it is `>= 0` exactly when the input is `>= 0`. -/
theorem metal_ctor_fuzz_upper_clamp (a : vec3 α) (f : α) :
    (metal.ctor a f).fuzz ≤ 1 ∧ (0 ≤ (metal.ctor a f).fuzz ↔ 0 ≤ f) := by
  by_cases h : f < 1
  · have e : (metal.ctor a f).fuzz = f := if_pos h
    rw [e]
    exact ⟨h.le, Iff.rfl⟩
  · have e : (metal.ctor a f).fuzz = 1 := if_neg h
    rw [e]
    exact ⟨le_refl 1, iff_of_true zero_le_one (zero_le_one.trans (not_lt.mp h))⟩

end MaterialClaims

/-! ## The sampler -/

theorem candidate_shift {α : Type} [Sub α] [Mul α] [One α] [NatCast α] (st : curandState α)
    (i : Nat) :
    candidate (⟨st.draws, st.pos + 3⟩ : curandState α) i = candidate st (i + 1) := by
  have e : st.pos + 3 + 3 * i = st.pos + 3 * (i + 1) := by omega
  simp only [candidate, uniform_triple, e]

section SamplerShape

variable {α : Type} [Add α] [Sub α] [Mul α] [One α] [NatCast α]
  [LE α] [DecidableRel ((· ≤ ·) : α → α → Prop)]

theorem random_in_unit_sphere_succ (fuel : Nat) (st : curandState α) :
    random_in_unit_sphere (fuel + 1) st =
      if 1 ≤ (candidate st 0).squared_length then
        random_in_unit_sphere fuel ⟨st.draws, st.pos + 3⟩
      else some (candidate st 0, ⟨st.draws, st.pos + 3⟩) := rfl

theorem random_in_unit_sphere_eq_some_iff (fuel : Nat) (st : curandState α) (s : vec3 α)
    (st1 : curandState α) :
    random_in_unit_sphere fuel st = some (s, st1) ↔
      ∃ j, j < fuel ∧ (∀ i, i < j → 1 ≤ (candidate st i).squared_length) ∧
        ¬ 1 ≤ (candidate st j).squared_length ∧ s = candidate st j ∧
        st1 = ⟨st.draws, st.pos + 3 * (j + 1)⟩ := by
  induction fuel generalizing st with
  | zero =>
    constructor
    · intro h
      simp [random_in_unit_sphere] at h
    · rintro ⟨j, hj, _⟩
      exact absurd hj (Nat.not_lt_zero j)
  | succ fuel ih =>
    rw [random_in_unit_sphere_succ]
    by_cases h0 : 1 ≤ (candidate st 0).squared_length
    · rw [if_pos h0, ih]
      constructor
      · rintro ⟨j, hj, hrej, hacc, hs, hst⟩
        refine ⟨j + 1, Nat.succ_lt_succ hj, ?_, ?_, ?_, ?_⟩
        · intro i hi
          cases i with
          | zero => exact h0
          | succ i =>
            rw [← candidate_shift]
            exact hrej i (Nat.lt_of_succ_lt_succ hi)
        · rw [← candidate_shift]; exact hacc
        · rw [← candidate_shift]; exact hs
        · rw [hst]
          have e : st.pos + 3 + 3 * (j + 1) = st.pos + 3 * (j + 1 + 1) := by omega
          simp only [e]
      · rintro ⟨j, hj, hrej, hacc, hs, hst⟩
        cases j with
        | zero => exact absurd h0 hacc
        | succ j =>
          refine ⟨j, Nat.lt_of_succ_lt_succ hj, ?_, ?_, ?_, ?_⟩
          · intro i hi
            rw [candidate_shift]
            exact hrej (i + 1) (Nat.succ_lt_succ hi)
          · rw [candidate_shift]; exact hacc
          · rw [candidate_shift]; exact hs
          · rw [hst]
            have e : st.pos + 3 + 3 * (j + 1) = st.pos + 3 * (j + 1 + 1) := by omega
            simp only [e]
    · rw [if_neg h0]
      constructor
      · intro h
        have h1 := Option.some.inj h
        refine ⟨0, Nat.succ_pos fuel, ?_, h0, (congrArg Prod.fst h1).symm,
          (congrArg Prod.snd h1).symm⟩
        intro i hi
        exact absurd hi (Nat.not_lt_zero i)
      · rintro ⟨j, _, hrej, _, hs, hst⟩
        cases j with
        | zero => rw [hs, hst]
        | succ j => exact absurd (hrej 0 (Nat.succ_pos j)) h0

end SamplerShape

/-! ## Emission -/

section EmissionClaims

variable {α : Type} [Zero α]

/-- C11: `diffuse_light(e).scatter` returns false for every ray, record and
generator state, and `diffuse_light(e).emitted()` returns `e`; `emitted()` of
every `lambertian` and every `metal` returns the zero vector. -/
theorem light_emits_and_others_do_not :
    (∀ (e : vec3 α) (r_in : ray α) (recd : hit_record α) (attenuation : vec3 α)
        (scattered : ray α) (local_rand_state : curandState α),
        (diffuse_light.scatter ⟨e⟩ r_in recd attenuation scattered local_rand_state).ret = false ∧
        diffuse_light.emitted (⟨e⟩ : diffuse_light α) = e) ∧
      (∀ self : lambertian α, self.emitted = ⟨0, 0, 0⟩) ∧
      (∀ self : metal α, self.emitted = ⟨0, 0, 0⟩) :=
  ⟨fun _ _ _ _ _ _ => ⟨rfl, rfl⟩, fun _ => rfl, fun _ => rfl⟩

end EmissionClaims

/-! ## The sampler in exact arithmetic -/

section SamplerClaims

variable {α : Type} [LinearOrderedField α]

/-- C12: with the random source read as the triples `q_0, q_1, ...` and the
candidates `p_i = 2*q_i - (1,1,1)`, `random_in_unit_sphere` returns `s` exactly
when `s = p_j` for the least index `j` with `squared_length(p_j) < 1` (every
earlier candidate has squared length `>= 1`) and the loop was allowed more than
`j` iterations; the state it leaves has consumed the `j + 1` triples.  So a
returned vector has squared length strictly below 1. -/
theorem sampler_returns_first_accepted (fuel : Nat) (st : curandState α) (s : vec3 α)
    (st1 : curandState α) :
    (random_in_unit_sphere fuel st = some (s, st1) ↔
        ∃ j, j < fuel ∧ (∀ i, i < j → 1 ≤ (candidate st i).squared_length) ∧
          (candidate st j).squared_length < 1 ∧ s = candidate st j ∧
          st1 = ⟨st.draws, st.pos + 3 * (j + 1)⟩) ∧
      (random_in_unit_sphere fuel st = some (s, st1) → s.squared_length < 1) := by
  have h := random_in_unit_sphere_eq_some_iff fuel st s st1
  simp only [not_le] at h
  refine ⟨h, fun hs => ?_⟩
  obtain ⟨j, _, _, hacc, hsj, _⟩ := h.mp hs
  rw [hsj]
  exact hacc

/-- C12 at a concrete input: the draws `1, 1, 1, 3/4, 1/2, 1/4` give the
candidate `(1, 1, 1)`, which is discarded, then `(1/2, 0, -1/2)`, which is
returned. -/
theorem sampler_returns_first_accepted_witness :
    random_in_unit_sphere 2
        (⟨fun n => if n < 3 then 1 else if n = 3 then 3/4 else if n = 4 then 1/2 else 1/4, 0⟩ :
          curandState ℚ) =
      some (⟨1/2, 0, -1/2⟩,
        ⟨fun n => if n < 3 then 1 else if n = 3 then 3/4 else if n = 4 then 1/2 else 1/4, 6⟩) ∧
    (⟨1/2, 0, -1/2⟩ : vec3 ℚ).squared_length < 1 :=
  have h : random_in_unit_sphere 2
        (⟨fun n => if n < 3 then 1 else if n = 3 then 3/4 else if n = 4 then 1/2 else 1/4, 0⟩ :
          curandState ℚ) =
      some (⟨1/2, 0, -1/2⟩,
        ⟨fun n => if n < 3 then 1 else if n = 3 then 3/4 else if n = 4 then 1/2 else 1/4, 6⟩) := by
    norm_num [random_in_unit_sphere, RANDVEC3, curand_uniform, vec3.squared_length]
  ⟨h, (sampler_returns_first_accepted 2 _ _ _).2 h⟩

end SamplerClaims

/-! ## Degenerate rays -/

section DegenerateRay

theorem Fl.sub_div_zero_rejected (k o a b : ℚ) (h : o ≠ k) :
    (Fl.fin k - Fl.fin o) / (0 : Fl) < Fl.fin a ∨ (Fl.fin k - Fl.fin o) / (0 : Fl) > Fl.fin b := by
  have hne : k + -o ≠ 0 := by
    intro e
    exact h (by linarith)
  have e : (Fl.fin k - Fl.fin o) / (0 : Fl) = Fl.infOfSign (k + -o) := by
    show Fl.div (Fl.add (Fl.fin k) (Fl.neg (Fl.fin o))) (Fl.fin 0) = _
    simp only [Fl.neg, Fl.add, Fl.div, hne, if_false, if_true]
  rw [e]
  by_cases hs : 0 < k + -o
  · right
    show Fl.lt (Fl.fin b) (Fl.infOfSign (k + -o)) = true
    simp only [Fl.infOfSign, hs, if_true, Fl.lt]
  · left
    show Fl.lt (Fl.infOfSign (k + -o)) (Fl.fin a) = true
    simp only [Fl.infOfSign, hs, if_false, Fl.lt]

/-- C14 as stated fails when the origin lies in the plane of the rectangle:
for the ray from `(1/4, 2, 3/4)` along `(1, 0, 1)` and the rectangle at
`y = 2`, `t = 0/0 = NaN`, neither `t < t_min` nor `t > t_max` holds, the
free-axis coordinates are `NaN` and pass the bounds test as well, and `hit`
returns true. -/
theorem zero_direction_in_plane_counterexample :
    (⟨⟨.fin (1/4), .fin 2, .fin (3/4)⟩, ⟨.fin 1, .fin 0, .fin 1⟩⟩ : ray Fl).direction.y = 0 ∧
    (xz_plane.hit (⟨7, .fin 0, .fin 1, .fin 0, .fin 1, .fin 2⟩ : xz_plane Fl)
        ⟨⟨.fin (1/4), .fin 2, .fin (3/4)⟩, ⟨.fin 1, .fin 0, .fin 1⟩⟩ (.fin 0) (.fin 100)
        ⟨.fin 0, ⟨.fin 0, .fin 0, .fin 0⟩, ⟨.fin 0, .fin 0, .fin 0⟩, 0, .fin 0, .fin 0, true⟩).1
      = true ∧
    (xz_plane.hit (⟨7, .fin 0, .fin 1, .fin 0, .fin 1, .fin 2⟩ : xz_plane Fl)
        ⟨⟨.fin (1/4), .fin 2, .fin (3/4)⟩, ⟨.fin 1, .fin 0, .fin 1⟩⟩ (.fin 0) (.fin 100)
        ⟨.fin 0, ⟨.fin 0, .fin 0, .fin 0⟩, ⟨.fin 0, .fin 0, .fin 0⟩, 0, .fin 0, .fin 0, true⟩).2.t
      = Fl.nan := by
  decide!

/-- C14, amended: for each rectangle, every ray whose direction component
along the fixed axis is 0 and whose origin is off the plane of the rectangle
(`origin[F] != k`, so that `t` is an infinity), all finite `t_min`, `t_max` and
all bounds, `hit` returns false. -/
theorem zero_direction_off_plane_no_hit :
    (∀ (self : xy_plane Fl) (r : ray Fl) (k o t_min t_max : ℚ) (recd : hit_record Fl),
      self.k = Fl.fin k → r.origin.z = Fl.fin o → r.direction.z = 0 → o ≠ k →
      (self.hit r (Fl.fin t_min) (Fl.fin t_max) recd).1 = false) ∧
    (∀ (self : xz_plane Fl) (r : ray Fl) (k o t_min t_max : ℚ) (recd : hit_record Fl),
      self.k = Fl.fin k → r.origin.y = Fl.fin o → r.direction.y = 0 → o ≠ k →
      (self.hit r (Fl.fin t_min) (Fl.fin t_max) recd).1 = false) ∧
    (∀ (self : yz_plane Fl) (r : ray Fl) (k o t_min t_max : ℚ) (recd : hit_record Fl),
      self.k = Fl.fin k → r.origin.x = Fl.fin o → r.direction.x = 0 → o ≠ k →
      (self.hit r (Fl.fin t_min) (Fl.fin t_max) recd).1 = false) := by
  refine ⟨?_, ?_, ?_⟩
  · intro self r k o t_min t_max recd hk ho hd hne
    rw [← Bool.not_eq_true, xy_plane_hit_fst_iff, hk, ho, hd]
    intro h
    exact h.1 (Fl.sub_div_zero_rejected k o t_min t_max hne)
  · intro self r k o t_min t_max recd hk ho hd hne
    rw [← Bool.not_eq_true, xz_plane_hit_fst_iff, hk, ho, hd]
    intro h
    exact h.1 (Fl.sub_div_zero_rejected k o t_min t_max hne)
  · intro self r k o t_min t_max recd hk ho hd hne
    rw [← Bool.not_eq_true, yz_plane_hit_fst_iff, hk, ho, hd]
    intro h
    exact h.1 (Fl.sub_div_zero_rejected k o t_min t_max hne)

/-- C14 at a concrete input: a ray parallel to the plane `z = 5`, starting at
`z = 0`, does not hit. -/
theorem zero_direction_off_plane_no_hit_witness :
    (xy_plane.hit (⟨7, .fin 0, .fin 1, .fin 0, .fin 1, .fin 5⟩ : xy_plane Fl)
        ⟨⟨.fin (1/2), .fin (1/2), .fin 0⟩, ⟨.fin 1, .fin 0, .fin 0⟩⟩ (.fin 0) (.fin 100)
        ⟨.fin 0, ⟨.fin 0, .fin 0, .fin 0⟩, ⟨.fin 0, .fin 0, .fin 0⟩, 0, .fin 0, .fin 0, true⟩).1
      = false :=
  zero_direction_off_plane_no_hit.1 ⟨7, .fin 0, .fin 1, .fin 0, .fin 1, .fin 5⟩
    ⟨⟨.fin (1/2), .fin (1/2), .fin 0⟩, ⟨.fin 1, .fin 0, .fin 0⟩⟩ 5 0 0 100
    ⟨.fin 0, ⟨.fin 0, .fin 0, .fin 0⟩, ⟨.fin 0, .fin 0, .fin 0⟩, 0, .fin 0, .fin 0, true⟩
    rfl rfl rfl (by norm_num)

end DegenerateRay

/-! ## A rejected ray leaves the record alone -/

section UntouchedRecord

variable {α : Type} [Add α] [Sub α] [Mul α] [Div α] [Neg α] [Zero α] [One α]
  [LT α] [DecidableRel ((· < ·) : α → α → Prop)]

/-- C17: for each rectangle, whenever `hit` returns false, on either rejection
path, the record handed back is the record handed in: none of the seven fields
is modified. -/
theorem rejected_hit_keeps_record :
    (∀ (self : xy_plane α) (r : ray α) (t_min t_max : α) (recd : hit_record α),
      (self.hit r t_min t_max recd).1 = false → (self.hit r t_min t_max recd).2 = recd) ∧
    (∀ (self : xz_plane α) (r : ray α) (t_min t_max : α) (recd : hit_record α),
      (self.hit r t_min t_max recd).1 = false → (self.hit r t_min t_max recd).2 = recd) ∧
    (∀ (self : yz_plane α) (r : ray α) (t_min t_max : α) (recd : hit_record α),
      (self.hit r t_min t_max recd).1 = false → (self.hit r t_min t_max recd).2 = recd) :=
  ⟨xy_plane_hit_of_false, xz_plane_hit_of_false, yz_plane_hit_of_false⟩

/-- C17 on one rejected ray of each rectangle: a ray passing beside the
z-rectangle, a ray passing beside a y-rectangle and a ray whose `t = 3/2` is
above `t_max = 1` on an x-rectangle all leave the record as it was. -/
theorem rejected_hit_keeps_record_witness :
    (xy_plane.hit (⟨7, 0, 1, 0, 1, 5⟩ : xy_plane ℚ) ⟨⟨2, 1/2, 0⟩, ⟨0, 0, 1⟩⟩ 0 100
        ⟨9, ⟨1, 2, 3⟩, ⟨4, 5, 6⟩, 3, 8, 9, false⟩).2 =
      ⟨9, ⟨1, 2, 3⟩, ⟨4, 5, 6⟩, 3, 8, 9, false⟩ ∧
    (xz_plane.hit (⟨8, 0, 1, 0, 1, 5⟩ : xz_plane ℚ) ⟨⟨1/4, 7, 2⟩, ⟨0, -1, 0⟩⟩ 0 100
        ⟨9, ⟨1, 2, 3⟩, ⟨4, 5, 6⟩, 3, 8, 9, false⟩).2 =
      ⟨9, ⟨1, 2, 3⟩, ⟨4, 5, 6⟩, 3, 8, 9, false⟩ ∧
    (yz_plane.hit (⟨9, 0, 1, 0, 1, 3⟩ : yz_plane ℚ) ⟨⟨0, 1/4, 3/4⟩, ⟨2, 0, 0⟩⟩ 0 1
        ⟨9, ⟨1, 2, 3⟩, ⟨4, 5, 6⟩, 3, 8, 9, false⟩).2 =
      ⟨9, ⟨1, 2, 3⟩, ⟨4, 5, 6⟩, 3, 8, 9, false⟩ :=
  ⟨(rejected_hit_keeps_record (α := ℚ)).1 ⟨7, 0, 1, 0, 1, 5⟩ ⟨⟨2, 1/2, 0⟩, ⟨0, 0, 1⟩⟩ 0 100
      ⟨9, ⟨1, 2, 3⟩, ⟨4, 5, 6⟩, 3, 8, 9, false⟩ (by decide!),
    (rejected_hit_keeps_record (α := ℚ)).2.1 ⟨8, 0, 1, 0, 1, 5⟩ ⟨⟨1/4, 7, 2⟩, ⟨0, -1, 0⟩⟩ 0 100
      ⟨9, ⟨1, 2, 3⟩, ⟨4, 5, 6⟩, 3, 8, 9, false⟩ (by decide!),
    (rejected_hit_keeps_record (α := ℚ)).2.2 ⟨9, 0, 1, 0, 1, 3⟩ ⟨⟨0, 1/4, 3/4⟩, ⟨2, 0, 0⟩⟩ 0 1
      ⟨9, ⟨1, 2, 3⟩, ⟨4, 5, 6⟩, 3, 8, 9, false⟩ (by decide!)⟩

end UntouchedRecord

/-! ## Boundary cases of the rectangle test -/

section BoundaryClaims

variable {α : Type} [LinearOrderedField α]

/-- C15 as stated fails.  First input: the rectangle `y0 = y1 = 1/2`,
`z ∈ [0,1]` at `x = 3` is hit by the ray from `(0, 1/2, 1/2)` along `(1, 0, 0)`,
whose `y` at `t = 3` is exactly the coincident bound; `hit` returns true (and
the stored `u` is `0/0 = NaN`).  Second input: a ray lying in the plane
`x = 3` has `t = NaN` and is a hit as well, although its `y` is not the
bound. -/
theorem zero_extent_rectangle_counterexample :
    ((yz_plane.hit (⟨7, .fin (1/2), .fin (1/2), .fin 0, .fin 1, .fin 3⟩ : yz_plane Fl)
        ⟨⟨.fin 0, .fin (1/2), .fin (1/2)⟩, ⟨.fin 1, .fin 0, .fin 0⟩⟩ (.fin 0) (.fin 100)
        ⟨.fin 0, ⟨.fin 0, .fin 0, .fin 0⟩, ⟨.fin 0, .fin 0, .fin 0⟩, 0, .fin 0, .fin 0, true⟩).1 = true ∧
      (yz_plane.hit (⟨7, .fin (1/2), .fin (1/2), .fin 0, .fin 1, .fin 3⟩ : yz_plane Fl)
        ⟨⟨.fin 0, .fin (1/2), .fin (1/2)⟩, ⟨.fin 1, .fin 0, .fin 0⟩⟩ (.fin 0) (.fin 100)
        ⟨.fin 0, ⟨.fin 0, .fin 0, .fin 0⟩, ⟨.fin 0, .fin 0, .fin 0⟩, 0, .fin 0, .fin 0, true⟩).2.u = Fl.nan) ∧
    (yz_plane.hit (⟨7, .fin (1/2), .fin (1/2), .fin 0, .fin 1, .fin 3⟩ : yz_plane Fl)
        ⟨⟨.fin 3, .fin 2, .fin (1/2)⟩, ⟨.fin 0, .fin 1, .fin 0⟩⟩ (.fin 0) (.fin 100)
        ⟨.fin 0, ⟨.fin 0, .fin 0, .fin 0⟩, ⟨.fin 0, .fin 0, .fin 0⟩, 0, .fin 0, .fin 0, true⟩).1 = true := by
  decide!

/-- C15, amended: for each rectangle of zero extent on a free axis and every
ray whose direction component along the fixed axis is nonzero, `hit` returns
false whenever the coordinate of the ray at `t` on that axis differs from the
coincident bound; a ray that lands exactly on the coincident bound, with `t`
in `[t_min, t_max]` and the other coordinate inside its bounds, is a hit. -/
theorem zero_extent_rectangle_hit_on_bound_only :
    (∀ (self : xy_plane α) (r : ray α) (t_min t_max : α) (recd : hit_record α),
      r.direction.z ≠ 0 →
      ((self.x0 = self.x1 ∧ r.origin.x + (self.k - r.origin.z) / r.direction.z * r.direction.x ≠ self.x0) ∨
        (self.y0 = self.y1 ∧ r.origin.y + (self.k - r.origin.z) / r.direction.z * r.direction.y ≠ self.y0) →
        (self.hit r t_min t_max recd).1 = false) ∧
      (self.x0 = self.x1 → r.origin.x + (self.k - r.origin.z) / r.direction.z * r.direction.x = self.x0 →
        t_min ≤ (self.k - r.origin.z) / r.direction.z → (self.k - r.origin.z) / r.direction.z ≤ t_max →
        self.y0 ≤ r.origin.y + (self.k - r.origin.z) / r.direction.z * r.direction.y →
        r.origin.y + (self.k - r.origin.z) / r.direction.z * r.direction.y ≤ self.y1 →
        (self.hit r t_min t_max recd).1 = true) ∧
      (self.y0 = self.y1 → r.origin.y + (self.k - r.origin.z) / r.direction.z * r.direction.y = self.y0 →
        t_min ≤ (self.k - r.origin.z) / r.direction.z → (self.k - r.origin.z) / r.direction.z ≤ t_max →
        self.x0 ≤ r.origin.x + (self.k - r.origin.z) / r.direction.z * r.direction.x →
        r.origin.x + (self.k - r.origin.z) / r.direction.z * r.direction.x ≤ self.x1 →
        (self.hit r t_min t_max recd).1 = true)) ∧
    (∀ (self : xz_plane α) (r : ray α) (t_min t_max : α) (recd : hit_record α),
      r.direction.y ≠ 0 →
      ((self.x0 = self.x1 ∧ r.origin.x + (self.k - r.origin.y) / r.direction.y * r.direction.x ≠ self.x0) ∨
        (self.z0 = self.z1 ∧ r.origin.z + (self.k - r.origin.y) / r.direction.y * r.direction.z ≠ self.z0) →
        (self.hit r t_min t_max recd).1 = false) ∧
      (self.x0 = self.x1 → r.origin.x + (self.k - r.origin.y) / r.direction.y * r.direction.x = self.x0 →
        t_min ≤ (self.k - r.origin.y) / r.direction.y → (self.k - r.origin.y) / r.direction.y ≤ t_max →
        self.z0 ≤ r.origin.z + (self.k - r.origin.y) / r.direction.y * r.direction.z →
        r.origin.z + (self.k - r.origin.y) / r.direction.y * r.direction.z ≤ self.z1 →
        (self.hit r t_min t_max recd).1 = true) ∧
      (self.z0 = self.z1 → r.origin.z + (self.k - r.origin.y) / r.direction.y * r.direction.z = self.z0 →
        t_min ≤ (self.k - r.origin.y) / r.direction.y → (self.k - r.origin.y) / r.direction.y ≤ t_max →
        self.x0 ≤ r.origin.x + (self.k - r.origin.y) / r.direction.y * r.direction.x →
        r.origin.x + (self.k - r.origin.y) / r.direction.y * r.direction.x ≤ self.x1 →
        (self.hit r t_min t_max recd).1 = true)) ∧
    (∀ (self : yz_plane α) (r : ray α) (t_min t_max : α) (recd : hit_record α),
      r.direction.x ≠ 0 →
      ((self.y0 = self.y1 ∧ r.origin.y + (self.k - r.origin.x) / r.direction.x * r.direction.y ≠ self.y0) ∨
        (self.z0 = self.z1 ∧ r.origin.z + (self.k - r.origin.x) / r.direction.x * r.direction.z ≠ self.z0) →
        (self.hit r t_min t_max recd).1 = false) ∧
      (self.y0 = self.y1 → r.origin.y + (self.k - r.origin.x) / r.direction.x * r.direction.y = self.y0 →
        t_min ≤ (self.k - r.origin.x) / r.direction.x → (self.k - r.origin.x) / r.direction.x ≤ t_max →
        self.z0 ≤ r.origin.z + (self.k - r.origin.x) / r.direction.x * r.direction.z →
        r.origin.z + (self.k - r.origin.x) / r.direction.x * r.direction.z ≤ self.z1 →
        (self.hit r t_min t_max recd).1 = true) ∧
      (self.z0 = self.z1 → r.origin.z + (self.k - r.origin.x) / r.direction.x * r.direction.z = self.z0 →
        t_min ≤ (self.k - r.origin.x) / r.direction.x → (self.k - r.origin.x) / r.direction.x ≤ t_max →
        self.y0 ≤ r.origin.y + (self.k - r.origin.x) / r.direction.x * r.direction.y →
        r.origin.y + (self.k - r.origin.x) / r.direction.x * r.direction.y ≤ self.y1 →
        (self.hit r t_min t_max recd).1 = true)) := by
  refine ⟨?_, ?_, ?_⟩
  · intro self r t_min t_max recd _
    refine ⟨?_, ?_, ?_⟩
    · intro h
      rw [← Bool.not_eq_true, xy_plane_hit_fst_iff]
      intro hin
      have hb := hin.2
      simp only [not_or, not_lt, gt_iff_lt] at hb
      obtain ⟨h1, h2, h3, h4⟩ := hb
      rcases h with ⟨e, hne⟩ | ⟨e, hne⟩
      · exact hne (le_antisymm (e ▸ h2) h1)
      · exact hne (le_antisymm (e ▸ h4) h3)
    · intro e ha h1 h2 h3 h4
      rw [xy_plane_hit_fst_iff]
      refine ⟨by simp [not_lt.mpr h1, not_lt.mpr h2], ?_⟩
      simp only [not_or, not_lt, gt_iff_lt]
      exact ⟨ha.ge, ha.le.trans e.le, h3, h4⟩
    · intro e hb h1 h2 h3 h4
      rw [xy_plane_hit_fst_iff]
      refine ⟨by simp [not_lt.mpr h1, not_lt.mpr h2], ?_⟩
      simp only [not_or, not_lt, gt_iff_lt]
      exact ⟨h3, h4, hb.ge, hb.le.trans e.le⟩
  · intro self r t_min t_max recd _
    refine ⟨?_, ?_, ?_⟩
    · intro h
      rw [← Bool.not_eq_true, xz_plane_hit_fst_iff]
      intro hin
      have hb := hin.2
      simp only [not_or, not_lt, gt_iff_lt] at hb
      obtain ⟨h1, h2, h3, h4⟩ := hb
      rcases h with ⟨e, hne⟩ | ⟨e, hne⟩
      · exact hne (le_antisymm (e ▸ h2) h1)
      · exact hne (le_antisymm (e ▸ h4) h3)
    · intro e ha h1 h2 h3 h4
      rw [xz_plane_hit_fst_iff]
      refine ⟨by simp [not_lt.mpr h1, not_lt.mpr h2], ?_⟩
      simp only [not_or, not_lt, gt_iff_lt]
      exact ⟨ha.ge, ha.le.trans e.le, h3, h4⟩
    · intro e hb h1 h2 h3 h4
      rw [xz_plane_hit_fst_iff]
      refine ⟨by simp [not_lt.mpr h1, not_lt.mpr h2], ?_⟩
      simp only [not_or, not_lt, gt_iff_lt]
      exact ⟨h3, h4, hb.ge, hb.le.trans e.le⟩
  · intro self r t_min t_max recd _
    refine ⟨?_, ?_, ?_⟩
    · intro h
      rw [← Bool.not_eq_true, yz_plane_hit_fst_iff]
      intro hin
      have hb := hin.2
      simp only [not_or, not_lt, gt_iff_lt] at hb
      obtain ⟨h1, h2, h3, h4⟩ := hb
      rcases h with ⟨e, hne⟩ | ⟨e, hne⟩
      · exact hne (le_antisymm (e ▸ h2) h1)
      · exact hne (le_antisymm (e ▸ h4) h3)
    · intro e ha h1 h2 h3 h4
      rw [yz_plane_hit_fst_iff]
      refine ⟨by simp [not_lt.mpr h1, not_lt.mpr h2], ?_⟩
      simp only [not_or, not_lt, gt_iff_lt]
      exact ⟨ha.ge, ha.le.trans e.le, h3, h4⟩
    · intro e hb h1 h2 h3 h4
      rw [yz_plane_hit_fst_iff]
      refine ⟨by simp [not_lt.mpr h1, not_lt.mpr h2], ?_⟩
      simp only [not_or, not_lt, gt_iff_lt]
      exact ⟨h3, h4, hb.ge, hb.le.trans e.le⟩

/-- C15 at a concrete input: the rectangle `x0 = x1 = 1/2` is missed by a ray
that crosses its plane at `x = 1/4`. -/
theorem zero_extent_rectangle_hit_on_bound_only_witness :
    (xy_plane.hit (⟨7, 1/2, 1/2, 0, 1, 5⟩ : xy_plane ℚ) ⟨⟨1/4, 1/2, 0⟩, ⟨0, 0, 1⟩⟩ 0 100
        ⟨0, ⟨0, 0, 0⟩, ⟨0, 0, 0⟩, 0, 0, 0, true⟩).1 = false :=
  ((zero_extent_rectangle_hit_on_bound_only (α := ℚ)).1 ⟨7, 1/2, 1/2, 0, 1, 5⟩
    ⟨⟨1/4, 1/2, 0⟩, ⟨0, 0, 1⟩⟩ 0 100 ⟨0, ⟨0, 0, 0⟩, ⟨0, 0, 0⟩, 0, 0, 0, true⟩ (by norm_num)).1
    (Or.inl ⟨rfl, by norm_num⟩)

/-- C16 as stated fails at both ends of the interval: on the unit rectangle
at `z = 5` the analytic `t` of the ray from `(1/2, 1/2, 0)` along `(0, 0, 1)` is
`5`; with `t_min = 5` and with `t_max = 5` the code returns a hit. -/
theorem closed_interval_counterexample :
    (xy_plane.hit (⟨7, 0, 1, 0, 1, 5⟩ : xy_plane ℚ) ⟨⟨1/2, 1/2, 0⟩, ⟨0, 0, 1⟩⟩ 5 100
        ⟨0, ⟨0, 0, 0⟩, ⟨0, 0, 0⟩, 0, 0, 0, true⟩).1 = true ∧
    (xy_plane.hit (⟨7, 0, 1, 0, 1, 5⟩ : xy_plane ℚ) ⟨⟨1/2, 1/2, 0⟩, ⟨0, 0, 1⟩⟩ 0 5
        ⟨0, ⟨0, 0, 0⟩, ⟨0, 0, 0⟩, 0, 0, 0, true⟩).1 = true ∧
    (xy_plane.hit (⟨7, 0, 1, 0, 1, 5⟩ : xy_plane ℚ) ⟨⟨1/2, 1/2, 0⟩, ⟨0, 0, 1⟩⟩ 5 100
        ⟨0, ⟨0, 0, 0⟩, ⟨0, 0, 0⟩, 0, 0, 0, true⟩).2.t = 5 := by
  decide!

/-- C16, amended: for each rectangle and every ray whose direction component
along the fixed axis is nonzero, `hit` returns false whenever the analytic `t`
lies outside the closed interval `[t_min, t_max]`, that is `t < t_min` or
`t > t_max`; at the boundary values `t = t_min` and `t = t_max` (with
`t_min <= t_max`) and the free-axis coordinates inside the bounds it returns
true. -/
theorem closed_interval_test :
    (∀ (self : xy_plane α) (r : ray α) (t_min t_max : α) (recd : hit_record α),
      r.direction.z ≠ 0 →
      ((self.k - r.origin.z) / r.direction.z < t_min ∨ (self.k - r.origin.z) / r.direction.z > t_max →
        (self.hit r t_min t_max recd).1 = false) ∧
      ((self.k - r.origin.z) / r.direction.z = t_min ∨ (self.k - r.origin.z) / r.direction.z = t_max →
        t_min ≤ t_max →
        self.x0 ≤ r.origin.x + (self.k - r.origin.z) / r.direction.z * r.direction.x →
        r.origin.x + (self.k - r.origin.z) / r.direction.z * r.direction.x ≤ self.x1 →
        self.y0 ≤ r.origin.y + (self.k - r.origin.z) / r.direction.z * r.direction.y →
        r.origin.y + (self.k - r.origin.z) / r.direction.z * r.direction.y ≤ self.y1 →
        (self.hit r t_min t_max recd).1 = true)) ∧
    (∀ (self : xz_plane α) (r : ray α) (t_min t_max : α) (recd : hit_record α),
      r.direction.y ≠ 0 →
      ((self.k - r.origin.y) / r.direction.y < t_min ∨ (self.k - r.origin.y) / r.direction.y > t_max →
        (self.hit r t_min t_max recd).1 = false) ∧
      ((self.k - r.origin.y) / r.direction.y = t_min ∨ (self.k - r.origin.y) / r.direction.y = t_max →
        t_min ≤ t_max →
        self.x0 ≤ r.origin.x + (self.k - r.origin.y) / r.direction.y * r.direction.x →
        r.origin.x + (self.k - r.origin.y) / r.direction.y * r.direction.x ≤ self.x1 →
        self.z0 ≤ r.origin.z + (self.k - r.origin.y) / r.direction.y * r.direction.z →
        r.origin.z + (self.k - r.origin.y) / r.direction.y * r.direction.z ≤ self.z1 →
        (self.hit r t_min t_max recd).1 = true)) ∧
    (∀ (self : yz_plane α) (r : ray α) (t_min t_max : α) (recd : hit_record α),
      r.direction.x ≠ 0 →
      ((self.k - r.origin.x) / r.direction.x < t_min ∨ (self.k - r.origin.x) / r.direction.x > t_max →
        (self.hit r t_min t_max recd).1 = false) ∧
      ((self.k - r.origin.x) / r.direction.x = t_min ∨ (self.k - r.origin.x) / r.direction.x = t_max →
        t_min ≤ t_max →
        self.y0 ≤ r.origin.y + (self.k - r.origin.x) / r.direction.x * r.direction.y →
        r.origin.y + (self.k - r.origin.x) / r.direction.x * r.direction.y ≤ self.y1 →
        self.z0 ≤ r.origin.z + (self.k - r.origin.x) / r.direction.x * r.direction.z →
        r.origin.z + (self.k - r.origin.x) / r.direction.x * r.direction.z ≤ self.z1 →
        (self.hit r t_min t_max recd).1 = true)) := by
  refine ⟨?_, ?_, ?_⟩
  · intro self r t_min t_max recd _
    refine ⟨?_, ?_⟩
    · intro h
      rw [← Bool.not_eq_true, xy_plane_hit_fst_iff]
      exact fun hin => hin.1 h
    · intro ht hle h1 h2 h3 h4
      rw [xy_plane_hit_fst_iff]
      refine ⟨?_, by simp [not_lt.mpr h1, not_lt.mpr h2, not_lt.mpr h3, not_lt.mpr h4]⟩
      simp only [not_or, not_lt, gt_iff_lt]
      rcases ht with e | e
      · exact ⟨e.ge, e.le.trans hle⟩
      · exact ⟨hle.trans e.ge, e.le⟩
  · intro self r t_min t_max recd _
    refine ⟨?_, ?_⟩
    · intro h
      rw [← Bool.not_eq_true, xz_plane_hit_fst_iff]
      exact fun hin => hin.1 h
    · intro ht hle h1 h2 h3 h4
      rw [xz_plane_hit_fst_iff]
      refine ⟨?_, by simp [not_lt.mpr h1, not_lt.mpr h2, not_lt.mpr h3, not_lt.mpr h4]⟩
      simp only [not_or, not_lt, gt_iff_lt]
      rcases ht with e | e
      · exact ⟨e.ge, e.le.trans hle⟩
      · exact ⟨hle.trans e.ge, e.le⟩
  · intro self r t_min t_max recd _
    refine ⟨?_, ?_⟩
    · intro h
      rw [← Bool.not_eq_true, yz_plane_hit_fst_iff]
      exact fun hin => hin.1 h
    · intro ht hle h1 h2 h3 h4
      rw [yz_plane_hit_fst_iff]
      refine ⟨?_, by simp [not_lt.mpr h1, not_lt.mpr h2, not_lt.mpr h3, not_lt.mpr h4]⟩
      simp only [not_or, not_lt, gt_iff_lt]
      rcases ht with e | e
      · exact ⟨e.ge, e.le.trans hle⟩
      · exact ⟨hle.trans e.ge, e.le⟩

/-- C16 at a concrete input: with `t_max` equal to the analytic `t = 5` the
scenario of the specification is still a hit. -/
theorem closed_interval_test_witness :
    (xy_plane.hit (⟨7, 0, 1, 0, 1, 5⟩ : xy_plane ℚ) ⟨⟨1/2, 1/2, 0⟩, ⟨0, 0, 1⟩⟩ 0 5
        ⟨0, ⟨0, 0, 0⟩, ⟨0, 0, 0⟩, 0, 0, 0, true⟩).1 = true :=
  ((closed_interval_test (α := ℚ)).1 ⟨7, 0, 1, 0, 1, 5⟩ ⟨⟨1/2, 1/2, 0⟩, ⟨0, 0, 1⟩⟩ 0 5
    ⟨0, ⟨0, 0, 0⟩, ⟨0, 0, 0⟩, 0, 0, 0, true⟩ (by norm_num)).2
    (Or.inr (by norm_num)) (by norm_num) (by norm_num) (by norm_num) (by norm_num)
    (by norm_num)

/-- C18: in exact arithmetic, for each rectangle and every ray whose direction
component along the fixed axis is nonzero, `hit` returns true exactly when `t`
lies in `[t_min, t_max]` and both free-axis coordinates lie inside the bounds,
and whenever it returns true the stored point lies on the rectangle: its
coordinate on the fixed axis is `k`, its free-axis coordinates are the tested
values `a`, `b` and lie within the bounds, and `rec.u`, `rec.v` are the affine
positions of those coordinates inside the bounds. -/
theorem hit_point_on_rectangle :
    (∀ (self : xy_plane α) (r : ray α) (t_min t_max : α) (recd : hit_record α),
      r.direction.z ≠ 0 →
      ((self.hit r t_min t_max recd).1 = true ↔
        (t_min ≤ (self.k - r.origin.z) / r.direction.z ∧ (self.k - r.origin.z) / r.direction.z ≤ t_max ∧
          self.x0 ≤ r.origin.x + (self.k - r.origin.z) / r.direction.z * r.direction.x ∧
          r.origin.x + (self.k - r.origin.z) / r.direction.z * r.direction.x ≤ self.x1 ∧
          self.y0 ≤ r.origin.y + (self.k - r.origin.z) / r.direction.z * r.direction.y ∧
          r.origin.y + (self.k - r.origin.z) / r.direction.z * r.direction.y ≤ self.y1)) ∧
      ((self.hit r t_min t_max recd).1 = true →
        (self.hit r t_min t_max recd).2.p.z = self.k ∧
        ((self.hit r t_min t_max recd).2.p.x = r.origin.x + (self.k - r.origin.z) / r.direction.z * r.direction.x ∧
          (self.hit r t_min t_max recd).2.p.y = r.origin.y + (self.k - r.origin.z) / r.direction.z * r.direction.y) ∧
        (self.x0 ≤ (self.hit r t_min t_max recd).2.p.x ∧ (self.hit r t_min t_max recd).2.p.x ≤ self.x1 ∧
          self.y0 ≤ (self.hit r t_min t_max recd).2.p.y ∧ (self.hit r t_min t_max recd).2.p.y ≤ self.y1) ∧
        (self.hit r t_min t_max recd).2.u = ((self.hit r t_min t_max recd).2.p.x - self.x0) / (self.x1 - self.x0) ∧
        (self.hit r t_min t_max recd).2.v = ((self.hit r t_min t_max recd).2.p.y - self.y0) / (self.y1 - self.y0))) ∧
    (∀ (self : xz_plane α) (r : ray α) (t_min t_max : α) (recd : hit_record α),
      r.direction.y ≠ 0 →
      ((self.hit r t_min t_max recd).1 = true ↔
        (t_min ≤ (self.k - r.origin.y) / r.direction.y ∧ (self.k - r.origin.y) / r.direction.y ≤ t_max ∧
          self.x0 ≤ r.origin.x + (self.k - r.origin.y) / r.direction.y * r.direction.x ∧
          r.origin.x + (self.k - r.origin.y) / r.direction.y * r.direction.x ≤ self.x1 ∧
          self.z0 ≤ r.origin.z + (self.k - r.origin.y) / r.direction.y * r.direction.z ∧
          r.origin.z + (self.k - r.origin.y) / r.direction.y * r.direction.z ≤ self.z1)) ∧
      ((self.hit r t_min t_max recd).1 = true →
        (self.hit r t_min t_max recd).2.p.y = self.k ∧
        ((self.hit r t_min t_max recd).2.p.x = r.origin.x + (self.k - r.origin.y) / r.direction.y * r.direction.x ∧
          (self.hit r t_min t_max recd).2.p.z = r.origin.z + (self.k - r.origin.y) / r.direction.y * r.direction.z) ∧
        (self.x0 ≤ (self.hit r t_min t_max recd).2.p.x ∧ (self.hit r t_min t_max recd).2.p.x ≤ self.x1 ∧
          self.z0 ≤ (self.hit r t_min t_max recd).2.p.z ∧ (self.hit r t_min t_max recd).2.p.z ≤ self.z1) ∧
        (self.hit r t_min t_max recd).2.u = ((self.hit r t_min t_max recd).2.p.x - self.x0) / (self.x1 - self.x0) ∧
        (self.hit r t_min t_max recd).2.v = ((self.hit r t_min t_max recd).2.p.z - self.z0) / (self.z1 - self.z0))) ∧
    (∀ (self : yz_plane α) (r : ray α) (t_min t_max : α) (recd : hit_record α),
      r.direction.x ≠ 0 →
      ((self.hit r t_min t_max recd).1 = true ↔
        (t_min ≤ (self.k - r.origin.x) / r.direction.x ∧ (self.k - r.origin.x) / r.direction.x ≤ t_max ∧
          self.y0 ≤ r.origin.y + (self.k - r.origin.x) / r.direction.x * r.direction.y ∧
          r.origin.y + (self.k - r.origin.x) / r.direction.x * r.direction.y ≤ self.y1 ∧
          self.z0 ≤ r.origin.z + (self.k - r.origin.x) / r.direction.x * r.direction.z ∧
          r.origin.z + (self.k - r.origin.x) / r.direction.x * r.direction.z ≤ self.z1)) ∧
      ((self.hit r t_min t_max recd).1 = true →
        (self.hit r t_min t_max recd).2.p.x = self.k ∧
        ((self.hit r t_min t_max recd).2.p.y = r.origin.y + (self.k - r.origin.x) / r.direction.x * r.direction.y ∧
          (self.hit r t_min t_max recd).2.p.z = r.origin.z + (self.k - r.origin.x) / r.direction.x * r.direction.z) ∧
        (self.y0 ≤ (self.hit r t_min t_max recd).2.p.y ∧ (self.hit r t_min t_max recd).2.p.y ≤ self.y1 ∧
          self.z0 ≤ (self.hit r t_min t_max recd).2.p.z ∧ (self.hit r t_min t_max recd).2.p.z ≤ self.z1) ∧
        (self.hit r t_min t_max recd).2.u = ((self.hit r t_min t_max recd).2.p.y - self.y0) / (self.y1 - self.y0) ∧
        (self.hit r t_min t_max recd).2.v = ((self.hit r t_min t_max recd).2.p.z - self.z0) / (self.z1 - self.z0))) := by
  refine ⟨?_, ?_, ?_⟩
  · intro self r t_min t_max recd hd
    refine ⟨xy_plane_hit_fst_iff_le self r t_min t_max recd, ?_⟩
    intro hit
    have hin := (xy_plane_hit_fst_iff_le self r t_min t_max recd).mp hit
    rw [xy_plane_hit_snd_of_true self r t_min t_max recd hit]
    refine ⟨?_, ⟨rfl, rfl⟩, hin.2.2, rfl, rfl⟩
    show r.origin.z + (self.k - r.origin.z) / r.direction.z * r.direction.z = self.k
    rw [div_mul_cancel₀ _ hd]
    exact add_sub_cancel _ _
  · intro self r t_min t_max recd hd
    refine ⟨xz_plane_hit_fst_iff_le self r t_min t_max recd, ?_⟩
    intro hit
    have hin := (xz_plane_hit_fst_iff_le self r t_min t_max recd).mp hit
    rw [xz_plane_hit_snd_of_true self r t_min t_max recd hit]
    refine ⟨?_, ⟨rfl, rfl⟩, hin.2.2, rfl, rfl⟩
    show r.origin.y + (self.k - r.origin.y) / r.direction.y * r.direction.y = self.k
    rw [div_mul_cancel₀ _ hd]
    exact add_sub_cancel _ _
  · intro self r t_min t_max recd hd
    refine ⟨yz_plane_hit_fst_iff_le self r t_min t_max recd, ?_⟩
    intro hit
    have hin := (yz_plane_hit_fst_iff_le self r t_min t_max recd).mp hit
    rw [yz_plane_hit_snd_of_true self r t_min t_max recd hit]
    refine ⟨?_, ⟨rfl, rfl⟩, hin.2.2, rfl, rfl⟩
    show r.origin.x + (self.k - r.origin.x) / r.direction.x * r.direction.x = self.k
    rw [div_mul_cancel₀ _ hd]
    exact add_sub_cancel _ _

/-- C18 on one hit of each rectangle: the stored points `(1/2, 1/2, 5)`,
`(1/4, 5, 3/4)` and `(3, 1/4, 3/4)` lie on the planes `z = 5`, `y = 5` and
`x = 3`, with the texture coordinates `(1/2, 1/2)`, `(1/4, 3/4)` and
`(1/4, 3/4)`. -/
theorem hit_point_on_rectangle_witness :
    ((xy_plane.hit (⟨7, 0, 1, 0, 1, 5⟩ : xy_plane ℚ) ⟨⟨1/2, 1/2, 0⟩, ⟨0, 0, 1⟩⟩ 0 100
        ⟨0, ⟨0, 0, 0⟩, ⟨0, 0, 0⟩, 0, 0, 0, true⟩).2.p = ⟨1/2, 1/2, 5⟩ ∧
      (xy_plane.hit (⟨7, 0, 1, 0, 1, 5⟩ : xy_plane ℚ) ⟨⟨1/2, 1/2, 0⟩, ⟨0, 0, 1⟩⟩ 0 100
        ⟨0, ⟨0, 0, 0⟩, ⟨0, 0, 0⟩, 0, 0, 0, true⟩).2.p.z = 5 ∧
      (xy_plane.hit (⟨7, 0, 1, 0, 1, 5⟩ : xy_plane ℚ) ⟨⟨1/2, 1/2, 0⟩, ⟨0, 0, 1⟩⟩ 0 100
        ⟨0, ⟨0, 0, 0⟩, ⟨0, 0, 0⟩, 0, 0, 0, true⟩).2.u = 1/2 ∧
      (xy_plane.hit (⟨7, 0, 1, 0, 1, 5⟩ : xy_plane ℚ) ⟨⟨1/2, 1/2, 0⟩, ⟨0, 0, 1⟩⟩ 0 100
        ⟨0, ⟨0, 0, 0⟩, ⟨0, 0, 0⟩, 0, 0, 0, true⟩).2.v = 1/2) ∧
    ((xz_plane.hit (⟨8, 0, 1, 0, 1, 5⟩ : xz_plane ℚ) ⟨⟨1/4, 7, 3/4⟩, ⟨0, -1, 0⟩⟩ 0 100
        ⟨0, ⟨0, 0, 0⟩, ⟨0, 0, 0⟩, 0, 0, 0, true⟩).2.p = ⟨1/4, 5, 3/4⟩ ∧
      (xz_plane.hit (⟨8, 0, 1, 0, 1, 5⟩ : xz_plane ℚ) ⟨⟨1/4, 7, 3/4⟩, ⟨0, -1, 0⟩⟩ 0 100
        ⟨0, ⟨0, 0, 0⟩, ⟨0, 0, 0⟩, 0, 0, 0, true⟩).2.p.y = 5 ∧
      (xz_plane.hit (⟨8, 0, 1, 0, 1, 5⟩ : xz_plane ℚ) ⟨⟨1/4, 7, 3/4⟩, ⟨0, -1, 0⟩⟩ 0 100
        ⟨0, ⟨0, 0, 0⟩, ⟨0, 0, 0⟩, 0, 0, 0, true⟩).2.u = 1/4 ∧
      (xz_plane.hit (⟨8, 0, 1, 0, 1, 5⟩ : xz_plane ℚ) ⟨⟨1/4, 7, 3/4⟩, ⟨0, -1, 0⟩⟩ 0 100
        ⟨0, ⟨0, 0, 0⟩, ⟨0, 0, 0⟩, 0, 0, 0, true⟩).2.v = 3/4) ∧
    ((yz_plane.hit (⟨9, 0, 1, 0, 1, 3⟩ : yz_plane ℚ) ⟨⟨0, 1/4, 3/4⟩, ⟨2, 0, 0⟩⟩ 0 100
        ⟨0, ⟨0, 0, 0⟩, ⟨0, 0, 0⟩, 0, 0, 0, true⟩).2.p = ⟨3, 1/4, 3/4⟩ ∧
      (yz_plane.hit (⟨9, 0, 1, 0, 1, 3⟩ : yz_plane ℚ) ⟨⟨0, 1/4, 3/4⟩, ⟨2, 0, 0⟩⟩ 0 100
        ⟨0, ⟨0, 0, 0⟩, ⟨0, 0, 0⟩, 0, 0, 0, true⟩).2.p.x = 3 ∧
      (yz_plane.hit (⟨9, 0, 1, 0, 1, 3⟩ : yz_plane ℚ) ⟨⟨0, 1/4, 3/4⟩, ⟨2, 0, 0⟩⟩ 0 100
        ⟨0, ⟨0, 0, 0⟩, ⟨0, 0, 0⟩, 0, 0, 0, true⟩).2.u = 1/4 ∧
      (yz_plane.hit (⟨9, 0, 1, 0, 1, 3⟩ : yz_plane ℚ) ⟨⟨0, 1/4, 3/4⟩, ⟨2, 0, 0⟩⟩ 0 100
        ⟨0, ⟨0, 0, 0⟩, ⟨0, 0, 0⟩, 0, 0, 0, true⟩).2.v = 3/4) := by
  have hxy := ((hit_point_on_rectangle (α := ℚ)).1 ⟨7, 0, 1, 0, 1, 5⟩
    ⟨⟨1/2, 1/2, 0⟩, ⟨0, 0, 1⟩⟩ 0 100 ⟨0, ⟨0, 0, 0⟩, ⟨0, 0, 0⟩, 0, 0, 0, true⟩
    (by norm_num)).2 (by decide!)
  have hxz := ((hit_point_on_rectangle (α := ℚ)).2.1 ⟨8, 0, 1, 0, 1, 5⟩
    ⟨⟨1/4, 7, 3/4⟩, ⟨0, -1, 0⟩⟩ 0 100 ⟨0, ⟨0, 0, 0⟩, ⟨0, 0, 0⟩, 0, 0, 0, true⟩
    (by norm_num)).2 (by decide!)
  have hyz := ((hit_point_on_rectangle (α := ℚ)).2.2 ⟨9, 0, 1, 0, 1, 3⟩
    ⟨⟨0, 1/4, 3/4⟩, ⟨2, 0, 0⟩⟩ 0 100 ⟨0, ⟨0, 0, 0⟩, ⟨0, 0, 0⟩, 0, 0, 0, true⟩
    (by norm_num)).2 (by decide!)
  have pxy := vec3.ext_of_components _ (⟨1/2, 1/2, 5⟩ : vec3 ℚ)
    (hxy.2.1.1.trans (by norm_num)) (hxy.2.1.2.trans (by norm_num)) hxy.1
  have pxz := vec3.ext_of_components _ (⟨1/4, 5, 3/4⟩ : vec3 ℚ)
    (hxz.2.1.1.trans (by norm_num)) hxz.1 (hxz.2.1.2.trans (by norm_num))
  have pyz := vec3.ext_of_components _ (⟨3, 1/4, 3/4⟩ : vec3 ℚ)
    hyz.1 (hyz.2.1.1.trans (by norm_num)) (hyz.2.1.2.trans (by norm_num))
  refine ⟨⟨pxy, hxy.1, ?_, ?_⟩, ⟨pxz, hxz.1, ?_, ?_⟩, ⟨pyz, hyz.1, ?_, ?_⟩⟩
  · rw [hxy.2.2.2.1, pxy]; norm_num
  · rw [hxy.2.2.2.2, pxy]; norm_num
  · rw [hxz.2.2.2.1, pxz]; norm_num
  · rw [hxz.2.2.2.2, pxz]; norm_num
  · rw [hyz.2.2.2.1, pyz]; norm_num
  · rw [hyz.2.2.2.2, pyz]; norm_num

end BoundaryClaims

/-! ## Geometry of the scattered ray in exact arithmetic -/

section ScatterGeometry

variable {α : Type} [LinearOrderedField α]

theorem dot_sq_le (a b : vec3 α) :
    dot a b * dot a b ≤ a.squared_length * b.squared_length := by
  simp only [dot, vec3.squared_length]
  nlinarith [sq_nonneg (a.x * b.y - a.y * b.x), sq_nonneg (a.x * b.z - a.z * b.x),
    sq_nonneg (a.y * b.z - a.z * b.y)]

theorem dot_add_left (a b c : vec3 α) : dot (a + b) c = dot a c + dot b c := by
  simp only [dot, vec3.add_def]
  ring

theorem reflect_dot_normal (v n : vec3 α) (hn : n.squared_length = 1) :
    dot (reflect v n) n = -dot v n := by
  simp only [reflect, dot, vec3.squared_length, vec3.sub_def, vec3.smul_def] at *
  linear_combination (-2 * (v.x * n.x + v.y * n.y + v.z * n.z)) * hn

theorem reflect_squared_length (v n : vec3 α) (hn : n.squared_length = 1) :
    (reflect v n).squared_length = v.squared_length := by
  simp only [reflect, dot, vec3.squared_length, vec3.sub_def, vec3.smul_def] at *
  linear_combination (4 * (v.x * n.x + v.y * n.y + v.z * n.z) ^ 2) * hn

/-- C19: in exact arithmetic, for every record whose normal has unit length
and every sample `s` returned by `random_in_unit_sphere` (so
`squared_length(s) < 1`), the ray produced by `lambertian::scatter` has a
direction that is not the zero vector and satisfies
`dot(direction, rec.normal) > 0`. -/
theorem lambertian_scatter_leaves_surface (self : lambertian α) (fuel : Nat) (r_in : ray α)
    (recd : hit_record α) (attenuation : vec3 α) (scattered : ray α)
    (local_rand_state st : curandState α) (s : vec3 α)
    (hn : recd.normal.squared_length = 1)
    (hs : random_in_unit_sphere fuel local_rand_state = some (s, st)) :
    s.squared_length < 1 ∧
      ∃ out, self.scatter fuel r_in recd attenuation scattered local_rand_state = some out ∧
        out.scattered.direction ≠ ⟨0, 0, 0⟩ ∧
        0 < dot out.scattered.direction recd.normal := by
  have hlt : s.squared_length < 1 := by
    obtain ⟨j, _, _, hacc, hsj, _⟩ :=
      (random_in_unit_sphere_eq_some_iff fuel local_rand_state s st).mp hs
    rw [hsj]
    exact not_le.mp hacc
  have hcs := dot_sq_le s recd.normal
  rw [hn, mul_one] at hcs
  have hgt : -1 < dot s recd.normal := by
    by_contra hcon
    have hle : dot s recd.normal ≤ -1 := not_lt.mp hcon
    nlinarith
  have e : recd.p + recd.normal + s - recd.p = recd.normal + s := by
    simp only [vec3.add_def, vec3.sub_def, add_sub_cancel_left, add_assoc]
  have hdot : 0 < dot (recd.normal + s) recd.normal := by
    rw [dot_add_left]
    have hnn : dot recd.normal recd.normal = 1 := hn
    rw [hnn]
    linarith
  refine ⟨hlt, ⟨true, self.albedo, ⟨recd.p, recd.normal + s⟩, st⟩, ?_, ?_, hdot⟩
  · simp only [lambertian.scatter, hs, e]
  · intro h0
    have h0d : (recd.normal + s) = (⟨0, 0, 0⟩ : vec3 α) := h0
    rw [h0d] at hdot
    simp only [dot, zero_mul, add_zero, lt_self_iff_false] at hdot

/-- C19 at a concrete input: on a surface of normal `(0, 0, -1)` the sample
`(1/2, 0, -1/2)` gives the direction `(1/2, 0, -3/2)`. -/
theorem lambertian_scatter_leaves_surface_witness :
    ∃ out,
      lambertian.scatter (⟨⟨1/5, 2/5, 3/5⟩⟩ : lambertian ℚ) 1 ⟨⟨0, 0, 0⟩, ⟨0, 0, 1⟩⟩
          ⟨5, ⟨1/2, 1/2, 5⟩, ⟨0, 0, -1⟩, 7, 1/2, 1/2, false⟩ ⟨0, 0, 0⟩ ⟨⟨0, 0, 0⟩, ⟨0, 0, 0⟩⟩
          ⟨fun n => if n = 0 then 3/4 else if n = 1 then 1/2 else 1/4, 0⟩ = some out ∧
        out.scattered.direction ≠ ⟨0, 0, 0⟩ ∧
        0 < dot out.scattered.direction (⟨0, 0, -1⟩ : vec3 ℚ) :=
  (lambertian_scatter_leaves_surface (⟨⟨1/5, 2/5, 3/5⟩⟩ : lambertian ℚ) 1
    ⟨⟨0, 0, 0⟩, ⟨0, 0, 1⟩⟩ ⟨5, ⟨1/2, 1/2, 5⟩, ⟨0, 0, -1⟩, 7, 1/2, 1/2, false⟩ ⟨0, 0, 0⟩
    ⟨⟨0, 0, 0⟩, ⟨0, 0, 0⟩⟩ ⟨fun n => if n = 0 then 3/4 else if n = 1 then 1/2 else 1/4, 0⟩
    ⟨fun n => if n = 0 then 3/4 else if n = 1 then 1/2 else 1/4, 3⟩ ⟨1/2, 0, -1/2⟩
    (by norm_num [vec3.squared_length])
    (by norm_num [random_in_unit_sphere, RANDVEC3, curand_uniform, vec3.squared_length])).2

/-- C20: in exact arithmetic, for every `v` and unit-length `n`,
`dot(reflect(v,n), n) = -dot(v,n)` and
`squared_length(reflect(v,n)) = squared_length(v)`; so for a record with a unit
normal and `dot(r_in.direction, rec.normal) <= 0`, a metal of fuzz 0 and a
normalization that returns the positive multiple of `r_in.direction` of unit
length, the scattered direction `d` has `dot(d, rec.normal) >= 0` and unit
length. -/
theorem reflect_is_isometric_mirror :
    (∀ v n : vec3 α, n.squared_length = 1 →
        dot (reflect v n) n = -dot v n ∧
        (reflect v n).squared_length = v.squared_length) ∧
      (∀ (unit_vector : vec3 α → vec3 α) (self : metal α) (fuel : Nat) (r_in : ray α)
        (recd : hit_record α) (attenuation : vec3 α) (scattered : ray α)
        (local_rand_state st : curandState α) (s : vec3 α) (c : α),
        recd.normal.squared_length = 1 → dot r_in.direction recd.normal ≤ 0 →
        self.fuzz = 0 →
        (unit_vector r_in.direction).squared_length = 1 → 0 < c →
        unit_vector r_in.direction = c • r_in.direction →
        random_in_unit_sphere fuel local_rand_state = some (s, st) →
        ∃ out,
          self.scatter unit_vector fuel r_in recd attenuation scattered local_rand_state =
            some out ∧
          out.scattered.direction = reflect (unit_vector r_in.direction) recd.normal ∧
          0 ≤ dot out.scattered.direction recd.normal ∧
          out.scattered.direction.squared_length = 1) := by
  refine ⟨fun v n hn => ⟨reflect_dot_normal v n hn, reflect_squared_length v n hn⟩, ?_⟩
  intro unit_vector self fuel r_in recd attenuation scattered local_rand_state st s c
    hn hd hf hu hc huc hs
  have e : reflect (unit_vector r_in.direction) recd.normal + self.fuzz • s =
      reflect (unit_vector r_in.direction) recd.normal := by
    rw [hf]
    simp only [vec3.smul_def, vec3.add_def, zero_mul, add_zero]
  refine ⟨⟨true, self.albedo,
    ⟨recd.p, reflect (unit_vector r_in.direction) recd.normal⟩, st⟩, ?_, rfl, ?_, ?_⟩
  · simp only [metal.scatter, hs, e]
  · show 0 ≤ dot (reflect (unit_vector r_in.direction) recd.normal) recd.normal
    rw [reflect_dot_normal _ _ hn, huc]
    have hdc : dot (c • r_in.direction) recd.normal = c * dot r_in.direction recd.normal := by
      simp only [dot, vec3.smul_def]
      ring
    rw [hdc]
    exact neg_nonneg.mpr (mul_nonpos_of_nonneg_of_nonpos hc.le hd)
  · show (reflect (unit_vector r_in.direction) recd.normal).squared_length = 1
    rw [reflect_squared_length _ _ hn, hu]

/-- C20 at a concrete input: a mirror hit head-on along `(0, 0, 2)` at a
surface of normal `(0, 0, -1)` sends the ray back along `(0, 0, -1)`, of unit
length. -/
theorem reflect_is_isometric_mirror_witness :
    ∃ out,
      metal.scatter (fun v => (1/2 : ℚ) • v) (metal.ctor (⟨4/5, 4/5, 4/5⟩ : vec3 ℚ) 0) 1
          ⟨⟨1/2, 1/2, 0⟩, ⟨0, 0, 2⟩⟩
          ⟨5/2, ⟨1/2, 1/2, 5⟩, ⟨0, 0, -1⟩, 7, 1/2, 1/2, false⟩ ⟨0, 0, 0⟩
          ⟨⟨0, 0, 0⟩, ⟨0, 0, 0⟩⟩
          ⟨fun n => if n = 0 then 3/4 else if n = 1 then 1/2 else 1/4, 0⟩ = some out ∧
        out.scattered.direction =
          reflect ((1/2 : ℚ) • (⟨0, 0, 2⟩ : vec3 ℚ)) (⟨0, 0, -1⟩ : vec3 ℚ) ∧
        0 ≤ dot out.scattered.direction (⟨0, 0, -1⟩ : vec3 ℚ) ∧
        out.scattered.direction.squared_length = 1 :=
  (reflect_is_isometric_mirror (α := ℚ)).2 (fun v => (1/2 : ℚ) • v)
    (metal.ctor (⟨4/5, 4/5, 4/5⟩ : vec3 ℚ) 0) 1 ⟨⟨1/2, 1/2, 0⟩, ⟨0, 0, 2⟩⟩
    ⟨5/2, ⟨1/2, 1/2, 5⟩, ⟨0, 0, -1⟩, 7, 1/2, 1/2, false⟩ ⟨0, 0, 0⟩ ⟨⟨0, 0, 0⟩, ⟨0, 0, 0⟩⟩
    ⟨fun n => if n = 0 then 3/4 else if n = 1 then 1/2 else 1/4, 0⟩
    ⟨fun n => if n = 0 then 3/4 else if n = 1 then 1/2 else 1/4, 3⟩ ⟨1/2, 0, -1/2⟩ (1/2)
    (by norm_num [vec3.squared_length]) (by norm_num [dot]) (by norm_num [metal.ctor])
    (by norm_num [vec3.squared_length]) (by norm_num) rfl
    (by norm_num [random_in_unit_sphere, RANDVEC3, curand_uniform, vec3.squared_length])

end ScatterGeometry

end CUDARenderer
